import Mathlib

/-!
Verification of the lawalletio/ledger transaction-processing engine.

The definitions below are a shallow embedding of the TypeScript sources:
  - `src/src/lib/events.ts` (event construction, NIP-26 author resolution)
  - `src/src/lib/transactions.ts` (shared pre-validation pipeline, snapshot data)
  - `src/src/nostr/internalTransaction.ts`, `inboundTransaction.ts`,
    `outboundTransaction.ts` (the three variant handlers)
  - `src/src/nostr/internalTransactionStart.ts` (inline debit/credit loops)

The database is a record of relational tables; Prisma operations become pure
functions returning `Except JsError DB`; `prisma.$transaction` becomes a
function whose error result discards the intermediate state (rollback).
Prisma `Decimal` amounts become `Int` (arbitrary precision).  External
collaborators (JSON.parse with the BigInt reviver, nip26.getDelegator, the
environment variables, clock, and injected transient faults) are parameters
collected in `Env`.  The `setTimeout` deferred balance republication is
modelled as running immediately after the commit publications: in this
single-request sequential model no other writer changes the store while the
timer is pending.

The helper functions `removeFromBalances`, `addToBalances` and
`createBalances` are imported by the handlers from `@lib/transactions` but
their definitions are not among the provided sources; they are modelled from
the spec (see their doc comments), reusing the per-balance step functions that
ARE in the sources (the inline loops of `internalTransactionStart.ts`).
-/

namespace Ledger

/-- A raw incoming (signed) nostr event, as delivered by the relay client. -/
structure NEvent where
  id : String
  pubkey : String
  sig : String
  kind : Nat
  tags : List (List String)
  content : String
deriving Repr, DecidableEq

/-- Parsed request content: `{ "tokens": { name: amount, ... }, "memo": ... }`.
Amounts are arbitrary-precision integers (the JS reviver turns numbers into
BigInt); the token map is an association list with the object's key order. -/
structure Payload where
  tokens : List (String × Int)
  memo : Option String
deriving Repr, DecidableEq

/-- The empty object `\x7b\x7d` the pipeline assigns to an unparsable payload. -/
def Payload.empty : Payload := { tokens := [], memo := none }

/-- Errors a database / handler operation can raise.  `notFound` is Prisma's
P2025 (`NotFoundError` / `PrismaClientKnownRequestError` with code P2025),
`uniqueViolation` is P2002, `typeError` is a JS TypeError, `invalidAuthor`
the `Error('Invalid author')` thrown by `nostrEventToDB`, and `injected` an
environment-injected transient fault (connectivity, deadlock, ...). -/
inductive JsError where
  | notFound
  | uniqueViolation
  | typeError
  | invalidAuthor
  | injected
deriving Repr, DecidableEq

/-- Row of the `events` table. -/
structure EventRow where
  id : String
  signature : String
  author : String
  signer : String
  kind : Nat
  payload : Option Payload
deriving Repr, DecidableEq

/-- Row of the `tokens` table. -/
structure TokenRow where
  id : String
  name : String
deriving Repr, DecidableEq

/-- Row of the `transaction_types` table. -/
structure TransactionTypeRow where
  id : String
  description : String
deriving Repr, DecidableEq

/-- Row of the `transactions` table.  Generated ids are drawn from the `fresh`
counter of the store. -/
structure TransactionRow where
  id : Nat
  transactionTypeId : String
  eventId : String
  payload : Option Payload
deriving Repr, DecidableEq

/-- Row of the `balances` table; `(accountId, tokenId)` is the unique key and
`snapshotId` points at the latest `balance_snapshots` row. -/
structure BalanceRow where
  accountId : String
  tokenId : String
  snapshotId : Nat
  eventId : String
deriving Repr, DecidableEq

/-- Row of the append-only `balance_snapshots` table. -/
structure BalanceSnapshotRow where
  id : Nat
  prevSnapshotId : Option Nat
  amount : Int
  delta : Int
  transactionId : Nat
  eventId : String
  tokenId : String
  accountId : String
deriving Repr, DecidableEq

/-- The relational store.  `fresh` is the source of generated ids (UUIDs in
the real schema). -/
structure DB where
  events : List EventRow
  tokens : List TokenRow
  txTypes : List TransactionTypeRow
  transactions : List TransactionRow
  balances : List BalanceRow
  snapshots : List BalanceSnapshotRow
  fresh : Nat
deriving Repr, DecidableEq

/-- External collaborators and configuration, out of scope of the engine:
`delegator` is `nip26.getDelegator`, `parse` is `JSON.parse` with the BigInt
reviver (returning `none` when it throws), `fault` injects a transient fault
into the database transaction of the given attempt number. -/
structure Env where
  nostrPubKey : String
  minterPubKey : String
  now : Nat
  delegator : NEvent → Option String
  parse : String → Option Payload
  fault : Nat → Bool

namespace Kind

def REGULAR : Nat := 1112

def EPHEMERAL : Nat := 21111

def PARAMETRIZED_REPLACEABLE : Nat := 31111

end Kind

/-- Mirrors `class TransactionType` of `src/src/lib/transactions.ts`. -/
structure TransactionType where
  name : String
deriving Repr, DecidableEq

def TransactionType.INTERNAL : TransactionType := ⟨"internal-transaction"⟩

def TransactionType.INBOUND : TransactionType := ⟨"inbound-transaction"⟩

def TransactionType.OUTBOUND : TransactionType := ⟨"outbound-transaction"⟩

def TransactionType.start (t : TransactionType) : String := t.name ++ "-start"

def TransactionType.ok (t : TransactionType) : String := t.name ++ "-ok"

def TransactionType.error (t : TransactionType) : String := t.name ++ "-error"

/-- Mirrors `ITransaction` of `src/src/lib/transactions.ts`.  The TS type has
no `extraTags` field (the read of `tx.extraTags` in `events.ts` always sees
`undefined`), so it is omitted here. -/
structure ITransaction where
  txType : TransactionType
  txTypeId : String
  senderId : String
  receiverId : String
  eventId : String
  content : Option Payload
deriving Repr, DecidableEq

/-- Mirrors `ExtBalance` (a Balance row with its `token` and `snapshot`
relations included). -/
structure ExtBalance where
  accountId : String
  tokenId : String
  snapshotId : Nat
  eventId : String
  token : TokenRow
  snapshot : BalanceSnapshotRow
deriving Repr, DecidableEq

/-- Mirrors `BalancesByAccount` of `src/src/lib/transactions.ts`. -/
structure BalancesByAccount where
  sender : List ExtBalance
  receiver : List ExtBalance
deriving Repr, DecidableEq

/-- An event the engine publishes to the outbox. -/
structure OutEvent where
  content : String
  createdAt : Nat
  kind : Nat
  pubkey : String
  tags : List (List String)
deriving Repr, DecidableEq

/-- Mirrors `txResultEvent` of `src/src/lib/events.ts`: kind 1112, tags
`p`=sender, `p`=receiver, `e`=request id, `t`=variant ok/error tag.  The
`tx.extraTags` concatenation never fires because the field is never set. -/
def txResultEvent (env : Env) (content : String) (tx : ITransaction)
    (success : Bool) : OutEvent :=
  { content := content
    createdAt := env.now
    kind := Kind.REGULAR
    pubkey := env.nostrPubKey
    tags := [["p", tx.senderId], ["p", tx.receiverId], ["e", tx.eventId],
             ["t", if success then tx.txType.ok else tx.txType.error]] }

/-- Models the external `JSON.stringify` of the request content used by
`txOkEvent` (BigInt values printed as numbers). -/
def serializeTokens : List (String × Int) → String
  | [] => ""
  | [(n, a)] => "\"" ++ n ++ "\":" ++ toString a
  | (n, a) :: rest => "\"" ++ n ++ "\":" ++ toString a ++ "," ++ serializeTokens rest

/-- Models the external `JSON.stringify` of the request content. -/
def serializeContent : Option Payload → String
  | none => "undefined"
  | some p =>
      "\x7b\"tokens\":\x7b" ++ serializeTokens p.tokens ++ "\x7d" ++
        (match p.memo with
          | none => ""
          | some m => ",\"memo\":\"" ++ m ++ "\"") ++ "\x7d"

/-- Mirrors `txOkEvent` of `src/src/lib/events.ts`. -/
def txOkEvent (env : Env) (tx : ITransaction) : OutEvent :=
  txResultEvent env (serializeContent tx.content) tx true

/-- Mirrors `txErrorEvent` of `src/src/lib/events.ts`.  Note the template
literal of the source produces the text `\x7bmessages:["<reason>"]\x7d`: the
`messages` key is NOT quoted. -/
def txErrorEvent (env : Env) (message : String) (tx : ITransaction) : OutEvent :=
  txResultEvent env ("\x7bmessages:[\"" ++ message ++ "\"]\x7d") tx false

/-- Mirrors `balanceEvent` of `src/src/lib/events.ts`. -/
def balanceEvent (env : Env) (balance : ExtBalance) (eventId : String) : OutEvent :=
  { content := "\x7b\x7d"
    createdAt := env.now
    kind := Kind.PARAMETRIZED_REPLACEABLE
    pubkey := env.nostrPubKey
    tags := [["p", balance.accountId],
             ["d", "balance:" ++ balance.token.name ++ ":" ++ balance.accountId],
             ["e", eventId],
             ["amount", toString balance.snapshot.amount]] }

/-- Author resolution of `nostrEventToDB`: the delegator when a `delegation`
tag is present, else the signer. -/
def authorOf (env : Env) (e : NEvent) : Option String :=
  if e.tags.any (fun t => t.head? == some "delegation") then env.delegator e
  else some e.pubkey

/-- Mirrors `nostrEventToDB` of `src/src/lib/events.ts`.  `none` models the
`throw new Error('Invalid author')` when a claimed delegation is
unresolvable.  The payload is `none` when `JSON.parse` throws. -/
def nostrEventToDB (env : Env) (e : NEvent) : Option EventRow :=
  (authorOf env e).map (fun a =>
    { id := e.id
      signature := e.sig
      author := a
      signer := e.pubkey
      kind := e.kind
      payload := env.parse e.content })

/-- The receiver is the second `p` tag's value:
`nostrEvent.tags.filter((t) => t[0] == 'p')[1][1]`.  `none` models the
TypeError thrown when fewer than two `p` tags are present (indexing
`undefined`). -/
def receiverIdOf (e : NEvent) : Option String :=
  ((e.tags.filter (fun t => t.head? == some "p"))[1]?).map
    (fun t => (t[1]?).getD "")

def hasEvent (db : DB) (id : String) : Bool :=
  db.events.any (fun r => r.id == id)

/-- `prisma.event.create`: inserting a row whose id already exists raises a
unique violation (P2002), otherwise appends the row. -/
def eventCreate (db : DB) (ev : EventRow) : Except JsError DB :=
  if hasEvent db ev.id then .error .uniqueViolation
  else .ok { db with events := db.events ++ [ev] }

/-- Mirrors `getTxTypeId` of `src/src/lib/transactions.ts`. -/
def getTxTypeId (db : DB) (typeName : String) : Option String :=
  (db.txTypes.find? (fun t => t.description == typeName)).map (fun t => t.id)

def lookupAmount (payload : Payload) (name : String) : Int :=
  (payload.tokens.lookup name).getD 0

/-- Result of the shared pre-validation pipeline of `getTxHandler`
(`src/src/lib/transactions.ts` lines 93-157): the handler either returns
silently on a replay, crashes with an uncaught throw, persists the Event and
publishes a deterministic rejection, or proceeds to the variant body with the
resolved transaction record, token rows and parsed payload. -/
inductive PreResult where
  | alreadyHandled
  | crash (err : JsError)
  | rejected (db : DB) (pubs : List OutEvent)
  | proceed (ev : EventRow) (tx : ITransaction) (tokens : List TokenRow)
      (payload : Payload)
deriving Repr, DecidableEq

/-- `Object.keys(tx.content.tokens)` of the pipeline. -/
def requestTokenNames (payload : Payload) : List String :=
  payload.tokens.map Prod.fst

/-- The token rows of the request:
`prisma.token.findMany(\x7b where: name in tokenNames \x7d)`. -/
def requestTokens (db : DB) (payload : Payload) : List TokenRow :=
  db.tokens.filter (fun t => (requestTokenNames payload).contains t.name)

/-- The `ITransaction` record built by `getTxHandler` (txTypeId still empty):
sender is the signer, receiver the second `p` tag. -/
def mkRequestTx (txType : TransactionType) (e : NEvent) (recv : String)
    (ev : EventRow) : ITransaction :=
  { txType := txType, txTypeId := "", senderId := e.pubkey,
    receiverId := recv, eventId := ev.id, content := ev.payload }

/-- The shared pre-validation pipeline of `getTxHandler`, in source order:
idempotency check, `nostrEventToDB` (author resolution, may throw), the
transaction-record construction (second `p` tag, may throw TypeError),
content-parse check, token existence, transaction-type existence. -/
def prevalidate (env : Env) (txType : TransactionType) (e : NEvent)
    (db : DB) : PreResult :=
  if hasEvent db e.id then .alreadyHandled
  else
    match nostrEventToDB env e with
    | none => .crash .invalidAuthor
    | some ev =>
      match receiverIdOf e with
      | none => .crash .typeError
      | some recv =>
        match ev.payload with
        | none =>
          match eventCreate db { ev with payload := some Payload.empty } with
          | .ok db1 =>
            .rejected db1
              [txErrorEvent env "Unparsable content" (mkRequestTx txType e recv ev)]
          | .error err => .crash err
        | some payload =>
          if (requestTokens db payload).length ≠
              (requestTokenNames payload).length then
            match eventCreate db ev with
            | .ok db1 =>
              .rejected db1
                [txErrorEvent env "Token not supported" (mkRequestTx txType e recv ev)]
            | .error err => .crash err
          else
            match getTxTypeId db txType.name with
            | none =>
              match eventCreate db ev with
              | .ok db1 =>
                .rejected db1
                  [txErrorEvent env "Transaction not supported"
                    (mkRequestTx txType e recv ev)]
              | .error err => .crash err
            | some tid =>
              .proceed ev { mkRequestTx txType e recv ev with txTypeId := tid }
                (requestTokens db payload) payload

/-- Mirrors `snapshotCreate` of `src/src/lib/transactions.ts` (the data for a
new snapshot row, taken from the already-mutated in-memory balance). -/
structure SnapshotCreateInput where
  prevSnapshotId : Option Nat
  amount : Int
  transactionId : Nat
  eventId : String
  delta : Int
  tokenId : String
  accountId : String
deriving Repr, DecidableEq

def snapshotCreate (balance : ExtBalance) (delta : Int) : SnapshotCreateInput :=
  { prevSnapshotId := some balance.snapshotId
    amount := balance.snapshot.amount
    transactionId := balance.snapshot.transactionId
    eventId := balance.eventId
    delta := delta
    tokenId := balance.tokenId
    accountId := balance.accountId }

/-- `tx.balance.update` with a nested `snapshot: \x7b create ... \x7d` and
`event: \x7b connect ... \x7d`: appends the new snapshot row and points the
(uniquely keyed) balance row at it. -/
def balanceUpdate (db : DB) (accountId tokenId : String) (newEventId : String)
    (snap : SnapshotCreateInput) : DB :=
  let newSnap : BalanceSnapshotRow :=
    { id := db.fresh
      prevSnapshotId := snap.prevSnapshotId
      amount := snap.amount
      delta := snap.delta
      transactionId := snap.transactionId
      eventId := snap.eventId
      tokenId := snap.tokenId
      accountId := snap.accountId }
  { db with
      snapshots := db.snapshots ++ [newSnap]
      balances := db.balances.map (fun r =>
        if r.accountId == accountId && r.tokenId == tokenId then
          { r with snapshotId := newSnap.id, eventId := newEventId }
        else r)
      fresh := db.fresh + 1 }

/-- One iteration of the sender debit loop of
`src/src/nostr/internalTransactionStart.ts` (lines 163-184): mutate the
in-memory balance (amount − Δ, new transaction id, event id), create the
snapshot with `delta = -Δ` via `snapshotCreate`, update the balance row. -/
def debitStep (db : DB) (balance : ExtBalance) (transaction : TransactionRow)
    (eventId : String) (txAmount : Int) : DB × ExtBalance :=
  let b1 : ExtBalance :=
    { balance with
        eventId := eventId
        snapshot :=
          { balance.snapshot with
              amount := balance.snapshot.amount - txAmount
              transactionId := transaction.id } }
  (balanceUpdate db balance.accountId balance.tokenId transaction.eventId
      (snapshotCreate b1 (-txAmount)),
   b1)

/-- One iteration of the receiver credit loop of
`src/src/nostr/internalTransactionStart.ts` (lines 185-205): same as
`debitStep` with `amount + Δ` and `delta = Δ`. -/
def creditStep (db : DB) (balance : ExtBalance) (transaction : TransactionRow)
    (eventId : String) (txAmount : Int) : DB × ExtBalance :=
  let b1 : ExtBalance :=
    { balance with
        eventId := eventId
        snapshot :=
          { balance.snapshot with
              amount := balance.snapshot.amount + txAmount
              transactionId := transaction.id } }
  (balanceUpdate db balance.accountId balance.tokenId transaction.eventId
      (snapshotCreate b1 txAmount),
   b1)

/-- Modelled from the spec: `removeFromBalances` is imported by the handlers
from `@lib/transactions` but its definition is not among the provided
sources.  Spec section 4.2 Debit: for each balance B in the given set,
require `B.amount ≥ Δ[B.token]` — a failure aborts the entire DB transaction
with the not-found sentinel the engine uses for insufficient funds (section
4.4) — compute `B.amount − Δ`, create a BalanceSnapshot with `delta = −Δ`
pointing at the previous snapshot, and update the Balance row.  The
per-balance step reuses `debitStep`, the inline loop present in
`internalTransactionStart.ts`. -/
def removeFromBalances (ev : EventRow) (transaction : TransactionRow)
    (payload : Payload) :
    DB → List ExtBalance → Except JsError (DB × List ExtBalance)
  | db, [] => .ok (db, [])
  | db, b :: rest =>
    let txAmount := lookupAmount payload b.token.name
    if b.snapshot.amount < txAmount then .error .notFound
    else
      let r := debitStep db b transaction ev.id txAmount
      (removeFromBalances ev transaction payload r.1 rest).map
        (fun out => (out.1, r.2 :: out.2))

/-- Modelled from the spec: `addToBalances` is imported by the handlers from
`@lib/transactions` but its definition is not among the provided sources.
Spec section 4.2 Credit: symmetric to Debit with `delta = +Δ` and no
sufficiency requirement.  The per-balance step reuses `creditStep`, the
inline loop present in `internalTransactionStart.ts`. -/
def addToBalances (ev : EventRow) (transaction : TransactionRow)
    (payload : Payload) :
    DB → List ExtBalance → Except JsError (DB × List ExtBalance)
  | db, [] => .ok (db, [])
  | db, b :: rest =>
    let txAmount := lookupAmount payload b.token.name
    let r := creditStep db b transaction ev.id txAmount
    (addToBalances ev transaction payload r.1 rest).map
      (fun out => (out.1, r.2 :: out.2))

/-- Creation of one fresh balance together with its first snapshot, the
compound INSERT of `internalTransactionStart.ts` lines 206-226: the first
snapshot has `prev_snapshot_id` null and `delta = amount = Δ`.  Inserting a
row for an existing `(account, token)` pair violates the unique key; per spec
section 5 this surfaces as a retriable transient (P2002), not a P2025. -/
def createBalance1 (db : DB) (receiverId : String) (token : TokenRow)
    (ev : EventRow) (transaction : TransactionRow) (txAmount : Int) :
    Except JsError (DB × ExtBalance) :=
  if db.balances.any (fun r =>
      r.accountId == receiverId && r.tokenId == token.id) then
    .error .uniqueViolation
  else
    let snap : BalanceSnapshotRow :=
      { id := db.fresh, prevSnapshotId := none, amount := txAmount,
        delta := txAmount, transactionId := transaction.id, eventId := ev.id,
        tokenId := token.id, accountId := receiverId }
    let bal : BalanceRow :=
      { accountId := receiverId, tokenId := token.id, snapshotId := db.fresh,
        eventId := ev.id }
    .ok ({ db with
            balances := db.balances ++ [bal]
            snapshots := db.snapshots ++ [snap]
            fresh := db.fresh + 1 },
         { accountId := receiverId, tokenId := token.id,
           snapshotId := db.fresh, eventId := ev.id, token := token,
           snapshot := snap })

/-- Modelled from the spec: `createBalances` (CreateFresh, spec section 4.2)
is imported by the handlers from `@lib/transactions` but its definition is
not among the provided sources; each element is the compound INSERT of
`createBalance1`. -/
def createBalances (receiverId : String) (ev : EventRow)
    (transaction : TransactionRow) (payload : Payload) :
    DB → List TokenRow → Except JsError (DB × List ExtBalance)
  | db, [] => .ok (db, [])
  | db, token :: rest =>
    match createBalance1 db receiverId token ev transaction
        (lookupAmount payload token.name) with
    | .error err => .error err
    | .ok (db1, b) =>
      (createBalances receiverId ev transaction payload db1 rest).map
        (fun out => (out.1, b :: out.2))

/-- `tx.transaction.create` with `transactionType: connect` and a nested
`event: create`: the connect fails with P2025 when the type id does not
exist; the nested event insert fails with a unique violation when the event
id is already present. -/
def transactionCreate (db : DB) (txTypeId : String) (ev : EventRow) :
    Except JsError (DB × TransactionRow) :=
  if db.txTypes.all (fun t => t.id != txTypeId) then .error .notFound
  else if hasEvent db ev.id then .error .uniqueViolation
  else
    let tr : TransactionRow :=
      { id := db.fresh, transactionTypeId := txTypeId, eventId := ev.id,
        payload := ev.payload }
    .ok ({ db with
            events := db.events ++ [ev]
            transactions := db.transactions ++ [tr]
            fresh := db.fresh + 1 },
         tr)

/-- SQL join of a balance row with its snapshot and token rows (the
`include: \x7b snapshot: true, token: true \x7d` of `findMany`); a row whose
foreign keys do not resolve produces no joined row. -/
def joinBalance (db : DB) (r : BalanceRow) : Option ExtBalance :=
  match db.snapshots.find? (fun s => s.id == r.snapshotId),
        db.tokens.find? (fun t => t.id == r.tokenId) with
  | some s, some t =>
    some { accountId := r.accountId, tokenId := r.tokenId,
           snapshotId := r.snapshotId, eventId := r.eventId, token := t,
           snapshot := s }
  | _, _ => none

/-- `tx.balance.findMany` with a boolean where-clause over the joined row. -/
def balanceFindMany (db : DB) (pred : ExtBalance → Bool) : List ExtBalance :=
  db.balances.filterMap (fun r =>
    (joinBalance db r).bind (fun b => if pred b then some b else none))

/-- The where-clause of the internal-transaction balance query
(`internalTransaction.ts` lines 76-97): sender rows filtered by the
sufficiency predicate `snapshot.amount ≥ requested`, receiver rows only by
token. -/
def internalWhere (tx : ITransaction) (tokens : List TokenRow)
    (payload : Payload) (b : ExtBalance) : Bool :=
  (b.accountId == tx.senderId &&
    tokens.any (fun t =>
      t.id == b.tokenId && decide (lookupAmount payload t.name ≤ b.snapshot.amount)))
  || (b.accountId == tx.receiverId && tokens.any (fun t => t.id == b.tokenId))

/-- The where-clause of the outbound (burn) balance query
(`outboundTransaction.ts` lines 89-95): the sender's rows for the requested
tokens, with NO sufficiency condition. -/
def outboundWhere (tx : ITransaction) (tokens : List TokenRow)
    (b : ExtBalance) : Bool :=
  b.accountId == tx.senderId && tokens.any (fun t => t.id == b.tokenId)

/-- The where-clause of the inbound (mint) balance query
(`inboundTransaction.ts` lines 83-89): the receiver's rows for the requested
tokens. -/
def inboundWhere (tx : ITransaction) (tokens : List TokenRow)
    (b : ExtBalance) : Bool :=
  b.accountId == tx.receiverId && tokens.any (fun t => t.id == b.tokenId)

/-- The grouping reduce of `internalTransaction.ts` lines 98-108: a row of
the sender account goes to `sender`, every other row to `receiver`. -/
def groupByAccount (senderId : String) (balances : List ExtBalance) :
    BalancesByAccount :=
  balances.foldl (fun g b =>
    if b.accountId == senderId then { g with sender := g.sender ++ [b] }
    else { g with receiver := g.receiver ++ [b] })
    { sender := [], receiver := [] }

/-- `MAX_RETRIES` of the handler modules. -/
def MAX_RETRIES : Nat := 10

/-- `prisma.$transaction`: an injected transient fault for this attempt makes
the whole transaction fail; otherwise the body runs and its error (if any)
rolls the store back (the caller keeps its pre-transaction state). -/
def runTx (env : Env) (attempt : Nat) (db : DB)
    (body : DB → Except JsError (DB × α)) : Except JsError (DB × α) :=
  if env.fault attempt then .error .injected else body db

/-- The observable result of one handler invocation: the final store, the
events published to the outbox, `err` when an exception escaped the promise
chain (an unhandled rejection: the engine does nothing further with the
request), and the number of handler entries performed (1 plus re-entries). -/
structure RunOut where
  db : DB
  pubs : List OutEvent
  err : Option JsError
  attempts : Nat
deriving Repr, DecidableEq

/-- The grouped result of the internal-transaction balance query. -/
def internalGroups (db : DB) (tx : ITransaction) (tokens : List TokenRow)
    (payload : Payload) : BalancesByAccount :=
  groupByAccount tx.senderId
    (balanceFindMany db (internalWhere tx tokens payload))

/-- `newBalances` of the internal handler: tokens held by the sender for
which the receiver has no balance row yet. -/
def newReceiverTokens (g : BalancesByAccount) : List TokenRow :=
  (g.sender.map (fun b => b.token)).filter
    (fun t => !((g.receiver.map (fun b => b.tokenId)).contains t.id))

/-- The `$transaction` body of `internalTransaction.ts` (lines 74-149):
query sender (sufficiency-filtered) and receiver balances, group, check the
sender cardinality (P2025 on failure), create the Transaction row (with the
nested Event insert), then debit sender / credit receiver / create fresh
receiver balances. -/
def internalTxBody (ev : EventRow) (tx : ITransaction)
    (tokens : List TokenRow) (payload : Payload) (db : DB) :
    Except JsError (DB × BalancesByAccount) :=
  if (internalGroups db tx tokens payload).sender.length ≠ tokens.length then
    .error .notFound
  else
    match transactionCreate db tx.txTypeId ev with
    | .error err => .error err
    | .ok (db1, transaction) =>
      match removeFromBalances ev transaction payload db1
          (internalGroups db tx tokens payload).sender with
      | .error err => .error err
      | .ok (db2, sender) =>
        match addToBalances ev transaction payload db2
            (internalGroups db tx tokens payload).receiver with
        | .error err => .error err
        | .ok (db3, receiver) =>
          match createBalances tx.receiverId ev transaction payload db3
              (newReceiverTokens (internalGroups db tx tokens payload)) with
          | .error err => .error err
          | .ok (db4, created) =>
            .ok (db4, { sender := sender, receiver := receiver ++ created })

/-- The `$transaction` body of `inboundTransaction.ts` (lines 72-104):
create the Transaction row first, load the receiver's balances, credit the
existing ones and create the rest. -/
def inboundTxBody (ev : EventRow) (tx : ITransaction)
    (tokens : List TokenRow) (payload : Payload) (db : DB) :
    Except JsError (DB × List ExtBalance) :=
  match transactionCreate db tx.txTypeId ev with
  | .error err => .error err
  | .ok (db1, transaction) =>
    let balances := balanceFindMany db1 (inboundWhere tx tokens)
    let newBalances := tokens.filter
      (fun tk => !((balances.map (fun b => b.tokenId)).contains tk.id))
    match addToBalances ev transaction payload db1 balances with
    | .error err => .error err
    | .ok (db2, credited) =>
      match createBalances tx.receiverId ev transaction payload db2
          newBalances with
      | .error err => .error err
      | .ok (db3, created) => .ok (db3, credited ++ created)

/-- The `$transaction` body of `outboundTransaction.ts` (lines 78-104):
create the Transaction row first, load the sender's balances for the
requested tokens (WITHOUT a sufficiency filter and with no cardinality
check), then debit them. -/
def outboundTxBody (ev : EventRow) (tx : ITransaction)
    (tokens : List TokenRow) (payload : Payload) (db : DB) :
    Except JsError (DB × List ExtBalance) :=
  match transactionCreate db tx.txTypeId ev with
  | .error err => .error err
  | .ok (db1, transaction) =>
    removeFromBalances ev transaction payload db1
      (balanceFindMany db1 (outboundWhere tx tokens))

/-- The deferred balance republication (`setTimeout` of
`internalTransaction.ts` lines 161-196): re-query the balances of the
affected accounts × tokens and publish one balance event per row, keyed to
the row's own `eventId`. -/
def republishQuery (env : Env) (db : DB) (accounts tokenIds : List String) :
    List OutEvent :=
  (balanceFindMany db (fun b =>
      accounts.contains b.accountId && tokenIds.contains b.tokenId)).map
    (fun b => balanceEvent env b b.eventId)

/-- The `.then` publications of `internalTransaction.ts` (lines 150-200):
the ok outcome, one balance event per affected balance, and — when any
balance was affected — the deferred republication. -/
def internalSuccessOut (env : Env) (ev : EventRow) (tx : ITransaction)
    (g : BalancesByAccount) (db : DB) : List OutEvent :=
  let balances := g.sender ++ g.receiver
  (txOkEvent env tx :: balances.map (fun b => balanceEvent env b ev.id)) ++
    (if balances.length ≠ 0 then
      republishQuery env db (balances.map (fun b => b.accountId))
        (balances.map (fun b => b.tokenId))
    else [])

/-- The `.then` publications of `outboundTransaction.ts` (lines 105-137).
The `okEvent.tags.concat(...)` of the source discards its result, so the
published ok event carries no carried-over `e` tags.  The deferred query uses
`balances[0].accountId`. -/
def outboundSuccessOut (env : Env) (ev : EventRow) (tx : ITransaction)
    (balances : List ExtBalance) (db : DB) : List OutEvent :=
  (txOkEvent env tx :: balances.map (fun b => balanceEvent env b ev.id)) ++
    (match balances with
      | [] => []
      | b0 :: _ =>
        republishQuery env db [b0.accountId] (balances.map (fun b => b.tokenId)))

/-- The `.then` publications of `inboundTransaction.ts` (lines 105-112): ok
outcome and balance events only (no deferred republication). -/
def inboundSuccessOut (env : Env) (ev : EventRow) (tx : ITransaction)
    (balances : List ExtBalance) : List OutEvent :=
  txOkEvent env tx :: balances.map (fun b => balanceEvent env b ev.id)

/-- The internal-transaction handler (`getHandler` of
`internalTransaction.ts` composed with `getTxHandler`): pre-validation, the
DB transaction, the `.then` publications, and the `.catch` that maps P2025 to
`Not enough funds`, retries any other failure while `ntry < MAX_RETRIES`, and
publishes `Network Error` when the bound is reached.  The recursion is
structural on `fuel`; the wrapper `internalHandler` below instantiates
`fuel = MAX_RETRIES + 1 - ntry`, which makes the `fuel = 0` fallback (inside
the `ntry < MAX_RETRIES` branch) unreachable: the guard `ntry < MAX_RETRIES`
forces `fuel ≥ 2` there. -/
def internalStep (env : Env) (e : NEvent) (retry : Nat → DB → RunOut)
    (ntry : Nat) (db : DB) : RunOut :=
  match prevalidate env TransactionType.INTERNAL e db with
  | .alreadyHandled => { db := db, pubs := [], err := none, attempts := 1 }
  | .crash err => { db := db, pubs := [], err := some err, attempts := 1 }
  | .rejected db1 pubs =>
    { db := db1, pubs := pubs, err := none, attempts := 1 }
  | .proceed ev tx tokens payload =>
    match runTx env ntry db (internalTxBody ev tx tokens payload) with
    | .ok (db1, g) =>
      { db := db1, pubs := internalSuccessOut env ev tx g db1, err := none,
        attempts := 1 }
    | .error .notFound =>
      match eventCreate db ev with
      | .ok db1 =>
        { db := db1, pubs := [txErrorEvent env "Not enough funds" tx],
          err := none, attempts := 1 }
      | .error err =>
        { db := db, pubs := [], err := some err, attempts := 1 }
    | .error _ =>
      if ntry < MAX_RETRIES then
        let r := retry (ntry + 1) db
        { db := r.db, pubs := r.pubs, err := r.err,
          attempts := r.attempts + 1 }
      else
        match eventCreate db ev with
        | .ok db1 =>
          { db := db1, pubs := [txErrorEvent env "Network Error" tx],
            err := none, attempts := 1 }
        | .error err =>
          { db := db, pubs := [], err := some err, attempts := 1 }

/-- Fuel-indexed recursion for the retry chain; the zero-fuel fallback is
unreachable under the wrapper's `fuel = MAX_RETRIES + 1 - ntry`. -/
def internalHandlerGo (env : Env) (e : NEvent) : Nat → Nat → DB → RunOut
  | 0 =>
    internalStep env e (fun _ db =>
      { db := db, pubs := [], err := some .injected, attempts := 1 })
  | fuel + 1 => internalStep env e (internalHandlerGo env e fuel)

/-- The internal-transaction handler entered with attempt counter `ntry`. -/
def internalHandler (env : Env) (e : NEvent) (ntry : Nat) (db : DB) : RunOut :=
  internalHandlerGo env e (MAX_RETRIES + 1 - ntry) ntry db

/-- The inbound-transaction handler (`getHandler` of
`inboundTransaction.ts`).  The non-minter check (lines 63-69) persists the
Event and publishes the error but does NOT return; the subsequent
`$transaction` then hits the unique violation of the nested event insert.
The retry call of its catch block (line 122) is `getHandler(++ntry)(...)`,
missing the `ctx` argument, so a retry crashes with a TypeError at the first
`ctx.prisma` access, before touching any state. -/
def inboundHandler (env : Env) (e : NEvent) (ntry : Nat) (db : DB) : RunOut :=
  match prevalidate env TransactionType.INBOUND e db with
  | .alreadyHandled => { db := db, pubs := [], err := none, attempts := 1 }
  | .crash err => { db := db, pubs := [], err := some err, attempts := 1 }
  | .rejected db1 pubs => { db := db1, pubs := pubs, err := none, attempts := 1 }
  | .proceed ev tx tokens payload =>
    match (if ev.author == env.minterPubKey then
            Except.ok (db, ([] : List OutEvent))
          else
            (eventCreate db ev).map (fun db1 =>
              (db1, [txErrorEvent env "Author cannot mint this token" tx]))) with
    | .error err => { db := db, pubs := [], err := some err, attempts := 1 }
    | .ok (db0, pubs0) =>
      match runTx env ntry db0 (inboundTxBody ev tx tokens payload) with
      | .ok (db1, balances) =>
        { db := db1, pubs := pubs0 ++ inboundSuccessOut env ev tx balances,
          err := none, attempts := 1 }
      | .error .notFound =>
        match eventCreate db0 ev with
        | .ok db1 =>
          { db := db1, pubs := pubs0 ++ [txErrorEvent env "Not enough funds" tx],
            err := none, attempts := 1 }
        | .error err =>
          { db := db0, pubs := pubs0, err := some err, attempts := 1 }
      | .error _ =>
        if ntry < MAX_RETRIES then
          { db := db0, pubs := pubs0, err := some .typeError, attempts := 2 }
        else
          match eventCreate db0 ev with
          | .ok db1 =>
            { db := db1, pubs := pubs0 ++ [txErrorEvent env "Network Error" tx],
              err := none, attempts := 1 }
          | .error err =>
            { db := db0, pubs := pubs0, err := some err, attempts := 1 }

/-- The outbound-transaction handler (`getHandler` of
`outboundTransaction.ts`), including the non-burner check that does not
short-circuit (lines 69-75) and the correct `getHandler(ctx, ++ntry)` retry
call.  Structural on `fuel` exactly as `internalHandlerGo`. -/
def outboundStep (env : Env) (e : NEvent) (retry : Nat → DB → RunOut)
    (ntry : Nat) (db : DB) : RunOut :=
  match prevalidate env TransactionType.OUTBOUND e db with
  | .alreadyHandled => { db := db, pubs := [], err := none, attempts := 1 }
  | .crash err => { db := db, pubs := [], err := some err, attempts := 1 }
  | .rejected db1 pubs =>
    { db := db1, pubs := pubs, err := none, attempts := 1 }
  | .proceed ev tx tokens payload =>
    match (if ev.author == env.minterPubKey then
            Except.ok (db, ([] : List OutEvent))
          else
            (eventCreate db ev).map (fun db1 =>
              (db1, [txErrorEvent env "Author cannot burn this token" tx]))) with
    | .error err => { db := db, pubs := [], err := some err, attempts := 1 }
    | .ok (db0, pubs0) =>
      match runTx env ntry db0 (outboundTxBody ev tx tokens payload) with
      | .ok (db1, balances) =>
        { db := db1,
          pubs := pubs0 ++ outboundSuccessOut env ev tx balances db1,
          err := none, attempts := 1 }
      | .error .notFound =>
        match eventCreate db0 ev with
        | .ok db1 =>
          { db := db1,
            pubs := pubs0 ++ [txErrorEvent env "Not enough funds" tx],
            err := none, attempts := 1 }
        | .error err =>
          { db := db0, pubs := pubs0, err := some err, attempts := 1 }
      | .error _ =>
        if ntry < MAX_RETRIES then
          let r := retry (ntry + 1) db0
          { db := r.db, pubs := pubs0 ++ r.pubs, err := r.err,
            attempts := r.attempts + 1 }
        else
          match eventCreate db0 ev with
          | .ok db1 =>
            { db := db1,
              pubs := pubs0 ++ [txErrorEvent env "Network Error" tx],
              err := none, attempts := 1 }
          | .error err =>
            { db := db0, pubs := pubs0, err := some err, attempts := 1 }

/-- Fuel-indexed recursion for the outbound retry chain. -/
def outboundHandlerGo (env : Env) (e : NEvent) : Nat → Nat → DB → RunOut
  | 0 =>
    outboundStep env e (fun _ db =>
      { db := db, pubs := [], err := some .injected, attempts := 1 })
  | fuel + 1 => outboundStep env e (outboundHandlerGo env e fuel)

/-- The outbound-transaction handler entered with attempt counter `ntry`. -/
def outboundHandler (env : Env) (e : NEvent) (ntry : Nat) (db : DB) : RunOut :=
  outboundHandlerGo env e (MAX_RETRIES + 1 - ntry) ntry db

/-- N sequential deliveries of the same request event to the internal
handler, the publications of all deliveries concatenated. -/
def deliverN (env : Env) (e : NEvent) (ntry : Nat) :
    Nat → DB → DB × List OutEvent
  | 0, db => (db, [])
  | n + 1, db =>
    let r := internalHandler env e ntry db
    let rest := deliverN env e ntry n r.db
    (rest.1, r.pubs ++ rest.2)

/-- Number of event rows with the given id. -/
def countEvents (db : DB) (id : String) : Nat :=
  (db.events.filter (fun r => r.id == id)).length

/-- Number of transaction rows originating from the given event id. -/
def countTx (db : DB) (id : String) : Nat :=
  (db.transactions.filter (fun r => r.eventId == id)).length

/-- `ChainOk snaps sid amt`: starting from the snapshot with id `sid` and
walking `prevSnapshotId`, the chain reaches a root snapshot (with
`prevSnapshotId` null), every link's stored `amount` is the running sum of
the `delta` fields, and `amt` is that sum at `sid` — i.e. the sum of `delta`
along the chain equals `amt`. -/
inductive ChainOk (snaps : List BalanceSnapshotRow) : Nat → Int → Prop where
  | root (s : BalanceSnapshotRow) (hs : s ∈ snaps)
      (hprev : s.prevSnapshotId = none) (hsum : s.amount = s.delta) :
      ChainOk snaps s.id s.amount
  | step (s : BalanceSnapshotRow) (p : Nat) (pa : Int) (hs : s ∈ snaps)
      (hprev : s.prevSnapshotId = some p) (hc : ChainOk snaps p pa)
      (hsum : s.amount = pa + s.delta) :
      ChainOk snaps s.id s.amount

/-- Spec invariant P5 for a whole store: every balance's `snapshotId` points
at a snapshot whose chain reaches a root and whose delta sum equals the
balance's current amount (the amount stored in that snapshot). -/
def chainsOk (db : DB) : Prop :=
  ∀ r ∈ db.balances, ∃ s ∈ db.snapshots,
    s.id = r.snapshotId ∧ ChainOk db.snapshots r.snapshotId s.amount

/- Concrete fixtures used by witnesses and counterexamples. -/

def tkT : TokenRow := { id := "t1", name := "T" }

def tkU : TokenRow := { id := "t2", name := "U" }

def ttRows : List TransactionTypeRow :=
  [{ id := "y1", description := "internal-transaction" },
   { id := "y2", description := "inbound-transaction" },
   { id := "y3", description := "outbound-transaction" }]

/-- Concrete model of `JSON.parse` with the BigInt reviver, defined on the
contents used by the fixtures. -/
def parseTable : String → Option Payload := fun s =>
  if s == "c40" then some { tokens := [("T", 40)], memo := none }
  else if s == "c0" then some { tokens := [("T", 0)], memo := none }
  else if s == "cBurn" then some { tokens := [("T", 10), ("U", 5)], memo := none }
  else if s == "cMint" then some { tokens := [("T", 100)], memo := none }
  else none

/-- Fault-free concrete environment: ledger identity `L`, minter `M`. -/
def envA : Env :=
  { nostrPubKey := "L", minterPubKey := "M", now := 7,
    delegator := fun _ => none, parse := parseTable, fault := fun _ => false }

/-- Environment in which every attempt's DB transaction hits a transient
fault. -/
def envFault : Env :=
  { nostrPubKey := "L", minterPubKey := "M", now := 7,
    delegator := fun _ => none, parse := parseTable, fault := fun _ => true }

def snapA10 : BalanceSnapshotRow :=
  { id := 0, prevSnapshotId := none, amount := 10, delta := 10,
    transactionId := 0, eventId := "g", tokenId := "t1", accountId := "A" }

def snapA100 : BalanceSnapshotRow :=
  { id := 0, prevSnapshotId := none, amount := 100, delta := 100,
    transactionId := 0, eventId := "g", tokenId := "t1", accountId := "A" }

def snapM10 : BalanceSnapshotRow :=
  { id := 0, prevSnapshotId := none, amount := 10, delta := 10,
    transactionId := 0, eventId := "g", tokenId := "t1", accountId := "M" }

def snapM100 : BalanceSnapshotRow :=
  { id := 0, prevSnapshotId := none, amount := 100, delta := 100,
    transactionId := 0, eventId := "g", tokenId := "t1", accountId := "M" }

/-- Store for the insufficient-funds scenario: A holds 10 T. -/
def dbC2 : DB :=
  { events := [], tokens := [tkT], txTypes := ttRows, transactions := [],
    balances := [{ accountId := "A", tokenId := "t1", snapshotId := 0,
                   eventId := "g" }],
    snapshots := [snapA10], fresh := 1 }

/-- A→B internal transfer of 40 T, sent by A. -/
def eC2 : NEvent :=
  { id := "e2", pubkey := "A", sig := "s", kind := 1112,
    tags := [["p", "L"], ["p", "B"], ["t", "internal-transaction-start"]],
    content := "c40" }

def plC40 : Payload := { tokens := [("T", 40)], memo := none }

def evC2 : EventRow :=
  { id := "e2", signature := "s", author := "A", signer := "A", kind := 1112,
    payload := some plC40 }

def txC2 : ITransaction :=
  { txType := TransactionType.INTERNAL, txTypeId := "y1", senderId := "A",
    receiverId := "B", eventId := "e2", content := some plC40 }

/-- Store for the successful-transfer scenario: A holds 100 T. -/
def dbC3 : DB :=
  { events := [], tokens := [tkT], txTypes := ttRows, transactions := [],
    balances := [{ accountId := "A", tokenId := "t1", snapshotId := 0,
                   eventId := "g" }],
    snapshots := [snapA100], fresh := 1 }

def eC3 : NEvent :=
  { id := "e3", pubkey := "A", sig := "s", kind := 1112,
    tags := [["p", "L"], ["p", "B"], ["t", "internal-transaction-start"]],
    content := "c40" }

/-- Store in which `eC3` has already been handled. -/
def dbC3dup : DB :=
  { dbC3 with
      events := [{ id := "e3", signature := "s", author := "A", signer := "A",
                   kind := 1112, payload := some plC40 }] }

/-- Mint of 100 T to C, requested (signed) by non-minter A. -/
def eC1 : NEvent :=
  { id := "e1", pubkey := "A", sig := "s", kind := 1112,
    tags := [["p", "L"], ["p", "C"], ["t", "inbound-transaction-start"]],
    content := "cMint" }

def dbC1 : DB :=
  { events := [], tokens := [tkT], txTypes := ttRows, transactions := [],
    balances := [], snapshots := [], fresh := 0 }

def plMint : Payload := { tokens := [("T", 100)], memo := none }

def evC1 : EventRow :=
  { id := "e1", signature := "s", author := "A", signer := "A", kind := 1112,
    payload := some plMint }

def txC1 : ITransaction :=
  { txType := TransactionType.INBOUND, txTypeId := "y2", senderId := "A",
    receiverId := "C", eventId := "e1", content := some plMint }

/-- Burn of 40 T requested by the minter M, who holds only 10 T. -/
def eC4a : NEvent :=
  { id := "e4a", pubkey := "M", sig := "s", kind := 1112,
    tags := [["p", "L"], ["p", "L"], ["t", "outbound-transaction-start"]],
    content := "c40" }

def dbC4a : DB :=
  { events := [], tokens := [tkT], txTypes := ttRows, transactions := [],
    balances := [{ accountId := "M", tokenId := "t1", snapshotId := 0,
                   eventId := "g" }],
    snapshots := [snapM10], fresh := 1 }

def evC4a : EventRow :=
  { id := "e4a", signature := "s", author := "M", signer := "M", kind := 1112,
    payload := some plC40 }

def txC4a : ITransaction :=
  { txType := TransactionType.OUTBOUND, txTypeId := "y3", senderId := "M",
    receiverId := "L", eventId := "e4a", content := some plC40 }

/-- Burn of (T:10, U:5) requested by the minter M, who holds 100 T and has NO
balance row at all for U. -/
def eC4b : NEvent :=
  { id := "e4b", pubkey := "M", sig := "s", kind := 1112,
    tags := [["p", "L"], ["p", "L"], ["t", "outbound-transaction-start"]],
    content := "cBurn" }

def dbC4b : DB :=
  { events := [], tokens := [tkT, tkU], txTypes := ttRows, transactions := [],
    balances := [{ accountId := "M", tokenId := "t1", snapshotId := 0,
                   eventId := "g" }],
    snapshots := [snapM100], fresh := 1 }

/-- Internal transfer declaring the non-positive amount T:0. -/
def eC5 : NEvent :=
  { id := "e5", pubkey := "A", sig := "s", kind := 1112,
    tags := [["p", "L"], ["p", "B"], ["t", "internal-transaction-start"]],
    content := "c0" }

def plC0 : Payload := { tokens := [("T", 0)], memo := none }

def evC5 : EventRow :=
  { id := "e5", signature := "s", author := "A", signer := "A", kind := 1112,
    payload := some plC0 }

def txC5 : ITransaction :=
  { txType := TransactionType.INTERNAL, txTypeId := "y1", senderId := "A",
    receiverId := "B", eventId := "e5", content := some plC0 }

/-- Request claiming a delegation that `nip26.getDelegator` cannot resolve. -/
def eC7 : NEvent :=
  { id := "e7", pubkey := "A", sig := "s", kind := 1112,
    tags := [["p", "L"], ["p", "B"], ["t", "internal-transaction-start"],
             ["delegation", "D", "cond", "sig"]],
    content := "c40" }

def eC8 : NEvent :=
  { id := "e8", pubkey := "A", sig := "s", kind := 1112,
    tags := [["p", "L"], ["p", "B"], ["t", "internal-transaction-start"]],
    content := "c40" }

def evC8 : EventRow :=
  { id := "e8", signature := "s", author := "A", signer := "A", kind := 1112,
    payload := some plC40 }

def txC8 : ITransaction :=
  { txType := TransactionType.INTERNAL, txTypeId := "y1", senderId := "A",
    receiverId := "B", eventId := "e8", content := some plC40 }

def dbC8 : DB :=
  { events := [], tokens := [tkT], txTypes := ttRows, transactions := [],
    balances := [{ accountId := "A", tokenId := "t1", snapshotId := 0,
                   eventId := "g" }],
    snapshots := [snapA100], fresh := 1 }

def txC9 : ITransaction :=
  { txType := TransactionType.INTERNAL, txTypeId := "y1", senderId := "A",
    receiverId := "B", eventId := "e9", content := none }

/-- Request carrying only one `p` tag. -/
def eC10 : NEvent :=
  { id := "e10", pubkey := "A", sig := "s", kind := 1112,
    tags := [["p", "L"], ["t", "internal-transaction-start"]],
    content := "c40" }

/-- Balance/snapshot fixture for the snapshot-chain witness. -/
def dbC6 : DB :=
  { events := [], tokens := [tkT], txTypes := ttRows, transactions := [],
    balances := [{ accountId := "A", tokenId := "t1", snapshotId := 0,
                   eventId := "g" }],
    snapshots := [snapA10], fresh := 1 }

def bC6 : ExtBalance :=
  { accountId := "A", tokenId := "t1", snapshotId := 0, eventId := "g",
    token := tkT, snapshot := snapA10 }

def trC6 : TransactionRow :=
  { id := 5, transactionTypeId := "y1", eventId := "e6", payload := none }

def rbC6 : BalanceRow :=
  { accountId := "A", tokenId := "t1", snapshotId := 0, eventId := "g" }

/- Helper lemmas. -/

theorem nostrEventToDB_inv (env : Env) (e : NEvent) (ev : EventRow)
    (h : nostrEventToDB env e = some ev) :
    ev.id = e.id ∧ ev.signer = e.pubkey ∧ ev.payload = env.parse e.content := by
  unfold nostrEventToDB at h
  cases ha : authorOf env e with
  | none => rw [ha] at h; simp at h
  | some a =>
    rw [ha] at h
    simp only [Option.map_some'] at h
    cases h
    exact ⟨rfl, rfl, rfl⟩

theorem prevalidate_proceed_inv (env : Env) (tt : TransactionType)
    (e : NEvent) (db : DB) (ev : EventRow) (tx : ITransaction)
    (tokens : List TokenRow) (payload : Payload)
    (h : prevalidate env tt e db = .proceed ev tx tokens payload) :
    hasEvent db e.id = false ∧ nostrEventToDB env e = some ev ∧
      ev.id = e.id ∧ tx.eventId = e.id ∧ tx.txType = tt ∧
      ev.payload = some payload ∧ tx.content = some payload ∧
      getTxTypeId db tt.name = some tx.txTypeId := by
  unfold prevalidate at h
  split at h
  · exact absurd h (by simp)
  · rename_i hev
    split at h
    · exact absurd h (by simp)
    · rename_i ev1 hev1
      split at h
      · exact absurd h (by simp)
      · rename_i recv hrecv
        split at h
        · split at h <;> exact absurd h (by simp)
        · rename_i payload1 hpl1
          by_cases hlen : (requestTokens db payload1).length ≠
              (requestTokenNames payload1).length
          · rw [if_pos hlen] at h
            split at h <;> exact absurd h (by simp)
          · rw [if_neg hlen] at h
            split at h
            · split at h <;> exact absurd h (by simp)
            · rename_i tid htid
              simp only [PreResult.proceed.injEq] at h
              obtain ⟨rfl, rfl, rfl, rfl⟩ := h
              have hid := nostrEventToDB_inv env e _ hev1
              simp only [Bool.not_eq_true] at hev
              exact ⟨hev, hev1, hid.1, hid.1, rfl, hpl1, hpl1, htid⟩

theorem getTxTypeId_mem (db : DB) (name tid : String)
    (h : getTxTypeId db name = some tid) :
    ∃ r ∈ db.txTypes, r.id = tid := by
  unfold getTxTypeId at h
  cases hf : db.txTypes.find? (fun t => t.description == name) with
  | none => rw [hf] at h; simp at h
  | some r =>
    rw [hf] at h
    simp only [Option.map_some'] at h
    cases h
    exact ⟨r, List.mem_of_find?_eq_some hf, rfl⟩

/-- Claim C9 (counterexample): the content of a published error outcome event
is the template-literal text with an UNQUOTED `messages` key, not the JSON
text `\x7b"messages":["<reason>"]\x7d` the claim states. -/
theorem c9_error_content_counterexample :
    (txErrorEvent envA "Not enough funds" txC9).content =
        "\x7bmessages:[\"Not enough funds\"]\x7d" ∧
      (txErrorEvent envA "Not enough funds" txC9).content ≠
        "\x7b\"messages\":[\"Not enough funds\"]\x7d" := by
  exact ⟨rfl, by decide⟩

/-- Claim C9 (amended): every error outcome event has kind 1112, tags
`p`=sender, `p`=receiver, `e`=request event id, `t`="<variant>-error", and
its content is exactly the text `\x7bmessages:["<reason>"]\x7d` (the
`messages` key is not quoted, so the content is not valid JSON). -/
theorem c9_error_event_shape (env : Env) (message : String)
    (tx : ITransaction) :
    (txErrorEvent env message tx).kind = 1112 ∧
      (txErrorEvent env message tx).pubkey = env.nostrPubKey ∧
      (txErrorEvent env message tx).tags =
        [["p", tx.senderId], ["p", tx.receiverId], ["e", tx.eventId],
         ["t", tx.txType.name ++ "-error"]] ∧
      (txErrorEvent env message tx).content =
        "\x7bmessages:[\"" ++ message ++ "\"]\x7d" := by
  exact ⟨rfl, rfl, rfl, rfl⟩

/-- Claim C5 (counterexample): a request declaring the non-positive amount
T:0 is NOT rejected by the pre-validation pipeline: it passes every check
and proceeds to the variant body; no `Token amount must be a positive
number` error exists anywhere in the pipeline. -/
theorem c5_nonpositive_passes_counterexample :
    (envA.parse eC5.content = some plC0 ∧ plC0.tokens = [("T", (0 : Int))]) ∧
      prevalidate envA TransactionType.INTERNAL eC5 dbC2 =
        .proceed evC5 txC5 [tkT] plC0 := by
  exact ⟨⟨rfl, rfl⟩, by decide⟩

/-- Claim C5 (amended): the shared pre-validation pipeline performs no
amount-sign check.  A request whose declared per-token amounts include a zero
or negative value passes pre-validation whenever the idempotency, authorship,
recipient, parse, token-existence and type-existence checks pass, and is
handed to the variant handler unchanged; no rejection with reason `Token
amount must be a positive number` occurs. -/
theorem c5_no_positivity_check (env : Env) (tt : TransactionType)
    (e : NEvent) (db : DB) (ev : EventRow) (recv : String)
    (payload : Payload) (tid : String)
    (hfresh : hasEvent db e.id = false)
    (hev : nostrEventToDB env e = some ev)
    (hrecv : receiverIdOf e = some recv)
    (hpl : ev.payload = some payload)
    (hneg : ∃ p ∈ payload.tokens, p.2 ≤ 0)
    (htok : (requestTokens db payload).length =
      (requestTokenNames payload).length)
    (htid : getTxTypeId db tt.name = some tid) :
    prevalidate env tt e db =
      .proceed ev
        { mkRequestTx tt e recv ev with txTypeId := tid }
        (requestTokens db payload) payload := by
  unfold prevalidate
  rw [hfresh]
  simp only [Bool.false_eq_true, if_false, hev, hrecv, hpl]
  rw [if_neg (fun hne => hne htok), htid]

/-- Claim C5 (witness for the amended theorem). -/
theorem c5_no_positivity_check_witness :
    prevalidate envA TransactionType.INTERNAL eC5 dbC2 =
      .proceed evC5
        { mkRequestTx TransactionType.INTERNAL eC5 "B" evC5 with
            txTypeId := "y1" }
        (requestTokens dbC2 plC0) plC0 :=
  c5_no_positivity_check envA TransactionType.INTERNAL eC5 dbC2 evC5 "B"
    plC0 "y1" (by decide) (by decide) (by decide) (by decide)
    ⟨("T", 0), by decide, by decide⟩ (by decide) (by decide)

/-- Claim C7 (counterexample): a request claiming an unresolvable delegation
is NOT rejected as `Bad delegation`: the handler crashes on the uncaught
`Invalid author` throw, persists NO Event (the store is unchanged, its events
table stays empty) and publishes NO error outcome event. -/
theorem c7_bad_delegation_counterexample :
    eC7.tags.any (fun t => t.head? == some "delegation") = true ∧
      (internalHandler envA eC7 0 dbC3).db = dbC3 ∧
      (internalHandler envA eC7 0 dbC3).db.events = [] ∧
      (internalHandler envA eC7 0 dbC3).pubs = [] ∧
      (internalHandler envA eC7 0 dbC3).err = some .invalidAuthor := by
  decide

/-- Claim C7 (amended): for every incoming event that claims delegation whose
delegation cannot be resolved, `nostrEventToDB` throws `Invalid author`; the
shared handler does not catch it, so the request leaves no durable footprint:
no Event row is persisted (hence no sender is assigned) and no error outcome
event is published. -/
theorem c7_bad_delegation_crashes (env : Env) (e : NEvent) (db : DB)
    (ntry : Nat)
    (hdel : e.tags.any (fun t => t.head? == some "delegation") = true)
    (hres : env.delegator e = none)
    (hfresh : hasEvent db e.id = false) :
    internalHandler env e ntry db =
      { db := db, pubs := [], err := some .invalidAuthor, attempts := 1 } := by
  have hev : nostrEventToDB env e = none := by
    unfold nostrEventToDB authorOf
    rw [hdel, hres]
    simp
  have hpre : prevalidate env TransactionType.INTERNAL e db =
      .crash .invalidAuthor := by
    unfold prevalidate
    simp only [hfresh, Bool.false_eq_true, if_false, hev]
  unfold internalHandler
  cases MAX_RETRIES + 1 - ntry <;> · unfold internalHandlerGo internalStep; rw [hpre]

/-- Claim C7 (witness for the amended theorem). -/
theorem c7_bad_delegation_crashes_witness :
    (eC7.tags.any (fun t => t.head? == some "delegation") = true ∧
        envA.delegator eC7 = none ∧ hasEvent dbC3 eC7.id = false) ∧
      internalHandler envA eC7 0 dbC3 =
        { db := dbC3, pubs := [], err := some .invalidAuthor, attempts := 1 } :=
  ⟨⟨by decide, rfl, by decide⟩,
   c7_bad_delegation_crashes envA eC7 dbC3 0 (by decide) rfl (by decide)⟩

/-- Claim C10: a fresh request event carrying fewer than two `p` tags makes
the shared handler throw a TypeError while building the transaction record
(indexing `undefined`), before the content-parse check runs (the conclusion
holds for every `env.parse` result): no Event row is persisted and no error
outcome event is published — the request leaves no durable footprint. -/
theorem c10_missing_p_tag_crash (env : Env) (e : NEvent) (db : DB)
    (ntry : Nat)
    (hfresh : hasEvent db e.id = false)
    (hauthor : (nostrEventToDB env e).isSome = true)
    (hp : (e.tags.filter (fun t => t.head? == some "p")).length < 2) :
    internalHandler env e ntry db =
      { db := db, pubs := [], err := some .typeError, attempts := 1 } := by
  have hrecv : receiverIdOf e = none := by
    unfold receiverIdOf
    rw [List.getElem?_eq_none (by omega)]
    rfl
  obtain ⟨ev, hev⟩ := Option.isSome_iff_exists.mp hauthor
  have hpre : prevalidate env TransactionType.INTERNAL e db =
      .crash .typeError := by
    unfold prevalidate
    simp only [hfresh, Bool.false_eq_true, if_false, hev, hrecv]
  unfold internalHandler
  cases MAX_RETRIES + 1 - ntry <;> · unfold internalHandlerGo internalStep; rw [hpre]

/-- Claim C10 (witness). -/
theorem c10_missing_p_tag_crash_witness :
    (hasEvent dbC3 eC10.id = false ∧
        (nostrEventToDB envA eC10).isSome = true ∧
        (eC10.tags.filter (fun t => t.head? == some "p")).length < 2) ∧
      internalHandler envA eC10 0 dbC3 =
        { db := dbC3, pubs := [], err := some .typeError, attempts := 1 } :=
  ⟨⟨by decide, by decide, by decide⟩,
   c10_missing_p_tag_crash envA eC10 dbC3 0 (by decide) (by decide) (by decide)⟩

theorem txTypes_all_ne_false (db : DB) (tid : String) (name : String)
    (htid : getTxTypeId db name = some tid) :
    db.txTypes.all (fun t => t.id != tid) = false := by
  obtain ⟨r, hr, hrid⟩ := getTxTypeId_mem db name tid htid
  rw [List.all_eq_false]
  exact ⟨r, hr, by simp [hrid]⟩

theorem hasEvent_append_self (db : DB) (ev : EventRow) :
    hasEvent { db with events := db.events ++ [ev] } ev.id = true := by
  simp [hasEvent]

/-- Claim C2: when fewer sender balances satisfy the sufficiency predicate
than there are requested tokens, the internal handler's DB transaction aborts
before any mutation: the final store only gains the Event row (balances,
snapshots and transactions are untouched on both sides) and exactly one
`Not enough funds` error outcome event is published. -/
theorem c2_insufficient_funds_aborts (env : Env) (e : NEvent) (db : DB)
    (ntry : Nat) (ev : EventRow) (tx : ITransaction)
    (tokens : List TokenRow) (payload : Payload)
    (hpre : prevalidate env TransactionType.INTERNAL e db =
      .proceed ev tx tokens payload)
    (hfault : env.fault ntry = false)
    (hlen : (internalGroups db tx tokens payload).sender.length <
      tokens.length) :
    internalHandler env e ntry db =
        { db := { db with events := db.events ++ [ev] },
          pubs := [txErrorEvent env "Not enough funds" tx], err := none,
          attempts := 1 } ∧
      (internalHandler env e ntry db).db.balances = db.balances ∧
      (internalHandler env e ntry db).db.snapshots = db.snapshots ∧
      (internalHandler env e ntry db).db.transactions = db.transactions := by
  obtain ⟨hhas, hevdb, hid, _, _, _, _, _⟩ :=
    prevalidate_proceed_inv env TransactionType.INTERNAL e db ev tx tokens
      payload hpre
  have hec : eventCreate db ev = .ok { db with events := db.events ++ [ev] } := by
    unfold eventCreate
    rw [hid, hhas]
    simp
  have hbody : internalTxBody ev tx tokens payload db = .error .notFound := by
    unfold internalTxBody
    rw [if_pos (Nat.ne_of_lt hlen)]
  have hrun : runTx env ntry db (internalTxBody ev tx tokens payload) =
      .error .notFound := by
    unfold runTx
    rw [hfault]
    simp [hbody]
  have hmain : internalHandler env e ntry db =
      { db := { db with events := db.events ++ [ev] },
        pubs := [txErrorEvent env "Not enough funds" tx], err := none,
        attempts := 1 } := by
    unfold internalHandler
    cases MAX_RETRIES + 1 - ntry <;>
    · unfold internalHandlerGo internalStep
      simp only [hpre, hrun, hec]
  exact ⟨hmain, by rw [hmain], by rw [hmain], by rw [hmain]⟩

/-- Claim C2 (witness): A holds 10 T and requests a transfer of 40 T. -/
theorem c2_insufficient_funds_aborts_witness :
    (prevalidate envA TransactionType.INTERNAL eC2 dbC2 =
        .proceed evC2 txC2 [tkT] plC40 ∧
      envA.fault 0 = false ∧
      (internalGroups dbC2 txC2 [tkT] plC40).sender.length <
        [tkT].length) ∧
      internalHandler envA eC2 0 dbC2 =
        { db := { dbC2 with events := dbC2.events ++ [evC2] },
          pubs := [txErrorEvent envA "Not enough funds" txC2], err := none,
          attempts := 1 } :=
  ⟨⟨by decide, rfl, by decide⟩,
   (c2_insufficient_funds_aborts envA eC2 dbC2 0 evC2 txC2 [tkT] plC40
      (by decide) rfl (by decide)).1⟩

/-- Claim C1: an inbound (mint) request whose resolved author is not
`MINTER_PUBLIC_KEY` ends with the Event persisted, exactly one
`Author cannot mint this token` error outcome event published, and no
balance mutation: no Transaction row, no Balance update, no BalanceSnapshot
insert.  (The handler does proceed to the credit transaction — the known
non-short-circuit — but that transaction always aborts on the unique
violation of its nested event insert, because the Event row was already
persisted.) -/
theorem c1_nonminter_mint_no_mutation (env : Env) (e : NEvent) (db : DB)
    (ntry : Nat) (ev : EventRow) (tx : ITransaction)
    (tokens : List TokenRow) (payload : Payload)
    (hpre : prevalidate env TransactionType.INBOUND e db =
      .proceed ev tx tokens payload)
    (hmint : ev.author ≠ env.minterPubKey)
    (hfault : ∀ n, env.fault n = false) :
    (inboundHandler env e ntry db).db =
        { db with events := db.events ++ [ev] } ∧
      (inboundHandler env e ntry db).pubs =
        [txErrorEvent env "Author cannot mint this token" tx] ∧
      (inboundHandler env e ntry db).db.balances = db.balances ∧
      (inboundHandler env e ntry db).db.snapshots = db.snapshots ∧
      (inboundHandler env e ntry db).db.transactions = db.transactions := by
  obtain ⟨hhas, hevdb, hid, _, _, _, _, htid⟩ :=
    prevalidate_proceed_inv env TransactionType.INBOUND e db ev tx tokens
      payload hpre
  have hec : eventCreate db ev = .ok { db with events := db.events ++ [ev] } := by
    unfold eventCreate
    rw [hid, hhas]
    simp
  have hbeq : (ev.author == env.minterPubKey) = false := by
    simp [hmint]
  have htc : transactionCreate { db with events := db.events ++ [ev] }
      tx.txTypeId ev = .error .uniqueViolation := by
    unfold transactionCreate
    rw [if_neg (by rw [txTypes_all_ne_false _ _ _ htid]; simp)]
    rw [if_pos (hasEvent_append_self db ev)]
  have hbody : inboundTxBody ev tx tokens payload
      { db with events := db.events ++ [ev] } = .error .uniqueViolation := by
    unfold inboundTxBody
    rw [htc]
  have hrun : runTx env ntry { db with events := db.events ++ [ev] }
      (inboundTxBody ev tx tokens payload) = .error .uniqueViolation := by
    unfold runTx
    rw [hfault ntry]
    simp [hbody]
  have hec2 : eventCreate { db with events := db.events ++ [ev] } ev =
      .error .uniqueViolation := by
    unfold eventCreate
    rw [if_pos (hasEvent_append_self db ev)]
  have hmain : (inboundHandler env e ntry db).db =
        { db with events := db.events ++ [ev] } ∧
      (inboundHandler env e ntry db).pubs =
        [txErrorEvent env "Author cannot mint this token" tx] := by
    unfold inboundHandler
    simp only [hpre, hbeq, Bool.false_eq_true, if_false, hec, Except.map,
      hrun, hec2]
    by_cases hn : ntry < MAX_RETRIES <;> simp [hn]
  exact ⟨hmain.1, hmain.2, by rw [hmain.1], by rw [hmain.1], by rw [hmain.1]⟩

/-- Claim C1 (witness): non-minter A requests a mint of 100 T to C. -/
theorem c1_nonminter_mint_no_mutation_witness :
    (prevalidate envA TransactionType.INBOUND eC1 dbC1 =
        .proceed evC1 txC1 [tkT] plMint ∧
      evC1.author ≠ envA.minterPubKey) ∧
      (inboundHandler envA eC1 0 dbC1).db =
        { dbC1 with events := dbC1.events ++ [evC1] } ∧
      (inboundHandler envA eC1 0 dbC1).pubs =
        [txErrorEvent envA "Author cannot mint this token" txC1] ∧
      (inboundHandler envA eC1 0 dbC1).db.balances = dbC1.balances ∧
      (inboundHandler envA eC1 0 dbC1).db.snapshots = dbC1.snapshots ∧
      (inboundHandler envA eC1 0 dbC1).db.transactions = dbC1.transactions :=
  ⟨⟨by decide, by decide⟩,
   c1_nonminter_mint_no_mutation envA eC1 dbC1 0 evC1 txC1 [tkT] plMint
     (by decide) (by decide) (fun _ => rfl)⟩

theorem removeFromBalances_insufficient (ev : EventRow)
    (transaction : TransactionRow) (payload : Payload) :
    ∀ (bs : List ExtBalance) (db : DB),
      bs.any (fun b =>
        decide (b.snapshot.amount < lookupAmount payload b.token.name)) = true →
      removeFromBalances ev transaction payload db bs = .error .notFound := by
  intro bs
  induction bs with
  | nil => intro db h; simp at h
  | cons b rest ih =>
    intro db h
    unfold removeFromBalances
    by_cases hb : b.snapshot.amount < lookupAmount payload b.token.name
    · rw [if_pos hb]
    · rw [if_neg hb]
      have hrest : rest.any (fun b =>
          decide (b.snapshot.amount < lookupAmount payload b.token.name)) =
          true := by
        simp only [List.any_cons, Bool.or_eq_true] at h
        rcases h with h | h
        · exact absurd (of_decide_eq_true h) hb
        · exact h
      simp only [ih, hrest, Except.map]

/-- Claim C4 (counterexample): the minter M holds 100 T and has NO balance
row for U, yet the burn request (T:10, U:5) COMMITS: a Transaction row is
created, the T balance is debited (a new snapshot appears), no error is
raised and no `Not enough funds` event is published — refuting "a burn never
commits when the sender lacks a sufficient balance for any requested token"
(and with it the claimed sufficiency filter and row-count check). -/
theorem c4_burn_commits_counterexample :
    dbC4b.balances.any (fun b => b.accountId == "M" && b.tokenId == "t2") =
        false ∧
      (outboundHandler envA eC4b 0 dbC4b).err = none ∧
      (outboundHandler envA eC4b 0 dbC4b).db.transactions.length = 1 ∧
      (outboundHandler envA eC4b 0 dbC4b).db.snapshots.length = 2 ∧
      (outboundHandler envA eC4b 0 dbC4b).pubs.any (fun p =>
        p.content == "\x7bmessages:[\"Not enough funds\"]\x7d") = false := by
  decide

/-- Claim C4 (amended): the outbound handler loads the sender's balances for
the requested tokens WITHOUT a sufficiency filter and performs no row-count
check; when some loaded balance has an insufficient amount, the per-balance
requirement of the Debit aborts the whole DB transaction: the Event is
persisted, one `Not enough funds` error outcome event is published and no
debit commits.  (When the sender simply has no row for a requested token the
burn commits for the remaining tokens — see the counterexample.) -/
theorem c4_insufficient_burn_rejected (env : Env) (e : NEvent) (db : DB)
    (ntry : Nat) (ev : EventRow) (tx : ITransaction)
    (tokens : List TokenRow) (payload : Payload)
    (hpre : prevalidate env TransactionType.OUTBOUND e db =
      .proceed ev tx tokens payload)
    (hmint : ev.author = env.minterPubKey)
    (hfault : env.fault ntry = false)
    (hinsuff : (balanceFindMany db (outboundWhere tx tokens)).any (fun b =>
      decide (b.snapshot.amount < lookupAmount payload b.token.name)) = true) :
    outboundHandler env e ntry db =
        { db := { db with events := db.events ++ [ev] },
          pubs := [txErrorEvent env "Not enough funds" tx], err := none,
          attempts := 1 } ∧
      (outboundHandler env e ntry db).db.balances = db.balances ∧
      (outboundHandler env e ntry db).db.snapshots = db.snapshots ∧
      (outboundHandler env e ntry db).db.transactions = db.transactions := by
  obtain ⟨hhas, hevdb, hid, _, _, _, _, htid⟩ :=
    prevalidate_proceed_inv env TransactionType.OUTBOUND e db ev tx tokens
      payload hpre
  have hbeq : (ev.author == env.minterPubKey) = true := by
    simp [hmint]
  have hec : eventCreate db ev = .ok { db with events := db.events ++ [ev] } := by
    unfold eventCreate
    rw [hid, hhas]
    simp
  have htcs : transactionCreate db tx.txTypeId ev =
      .ok ({ db with
              events := db.events ++ [ev]
              transactions := db.transactions ++
                [{ id := db.fresh, transactionTypeId := tx.txTypeId,
                   eventId := ev.id, payload := ev.payload }]
              fresh := db.fresh + 1 },
           { id := db.fresh, transactionTypeId := tx.txTypeId,
             eventId := ev.id, payload := ev.payload }) := by
    unfold transactionCreate
    rw [txTypes_all_ne_false db tx.txTypeId _ htid]
    rw [hid, hhas]
    simp
  have hbody : outboundTxBody ev tx tokens payload db = .error .notFound := by
    unfold outboundTxBody
    rw [htcs]
    exact removeFromBalances_insufficient ev _ payload _ _ hinsuff
  have hrun : runTx env ntry db (outboundTxBody ev tx tokens payload) =
      .error .notFound := by
    unfold runTx
    rw [hfault]
    simp [hbody]
  have hmain : outboundHandler env e ntry db =
      { db := { db with events := db.events ++ [ev] },
        pubs := [txErrorEvent env "Not enough funds" tx], err := none,
        attempts := 1 } := by
    unfold outboundHandler
    cases MAX_RETRIES + 1 - ntry <;>
    · unfold outboundHandlerGo outboundStep
      simp only [hpre, hbeq, if_true, hrun, hec, List.nil_append]
  exact ⟨hmain, by rw [hmain], by rw [hmain], by rw [hmain]⟩

/-- Claim C4 (witness for the amended theorem): minter M holds 10 T and
requests a burn of 40 T. -/
theorem c4_insufficient_burn_rejected_witness :
    (prevalidate envA TransactionType.OUTBOUND eC4a dbC4a =
        .proceed evC4a txC4a [tkT] plC40 ∧
      evC4a.author = envA.minterPubKey ∧
      (balanceFindMany dbC4a (outboundWhere txC4a [tkT])).any (fun b =>
        decide (b.snapshot.amount < lookupAmount plC40 b.token.name)) = true) ∧
      outboundHandler envA eC4a 0 dbC4a =
        { db := { dbC4a with events := dbC4a.events ++ [evC4a] },
          pubs := [txErrorEvent envA "Not enough funds" txC4a], err := none,
          attempts := 1 } :=
  ⟨⟨by decide, by decide, by decide⟩,
   (c4_insufficient_burn_rejected envA eC4a dbC4a 0 evC4a txC4a [tkT] plC40
      (by decide) (by decide) rfl (by decide)).1⟩

theorem internalGo_allfault (env : Env) (e : NEvent) (db : DB) (ev : EventRow)
    (tx : ITransaction) (tokens : List TokenRow) (payload : Payload)
    (hpre : prevalidate env TransactionType.INTERNAL e db =
      .proceed ev tx tokens payload)
    (hfault : ∀ n, env.fault n = true)
    (hec : eventCreate db ev = .ok { db with events := db.events ++ [ev] }) :
    ∀ (fuel ntry : Nat), fuel = MAX_RETRIES + 1 - ntry →
      ntry ≤ MAX_RETRIES →
      internalHandlerGo env e fuel ntry db =
        { db := { db with events := db.events ++ [ev] },
          pubs := [txErrorEvent env "Network Error" tx], err := none,
          attempts := MAX_RETRIES - ntry + 1 } := by
  intro fuel
  induction fuel with
  | zero => intro ntry h1 h2; omega
  | succ fuel ih =>
    intro ntry h1 h2
    have hrun : runTx env ntry db (internalTxBody ev tx tokens payload) =
        .error .injected := by
      unfold runTx
      rw [hfault ntry]
      simp
    unfold internalHandlerGo internalStep
    simp only [hpre, hrun]
    by_cases hn : ntry < MAX_RETRIES
    · rw [if_pos hn]
      have hr := ih (ntry + 1) (by omega) (by omega)
      simp only [hr]
      rw [show MAX_RETRIES - (ntry + 1) + 1 + 1 = MAX_RETRIES - ntry + 1 by
        omega]
    · rw [if_neg hn]
      simp only [hec]
      rw [show MAX_RETRIES - ntry + 1 = 1 by omega]

theorem internalGo_attempts_le (env : Env) (e : NEvent) :
    ∀ (fuel ntry : Nat) (db : DB), fuel = MAX_RETRIES + 1 - ntry →
      (internalHandlerGo env e fuel ntry db).attempts ≤
        MAX_RETRIES + 1 - min ntry MAX_RETRIES := by
  intro fuel
  induction fuel with
  | zero =>
    intro ntry db hf
    have hn : ¬ ntry < MAX_RETRIES := by unfold MAX_RETRIES at hf ⊢; omega
    unfold internalHandlerGo internalStep
    split
    · simp; omega
    · simp; omega
    · simp; omega
    · split
      · simp; omega
      · split <;> · simp; omega
      · rw [if_neg hn]
        split <;> · simp; omega
  | succ fuel ih =>
    intro ntry db hf
    unfold internalHandlerGo internalStep
    split
    · simp; omega
    · simp; omega
    · simp; omega
    · split
      · simp; omega
      · split <;> · simp; omega
      · by_cases hn : ntry < MAX_RETRIES
        · rw [if_pos hn]
          have hr := ih (ntry + 1) db (by omega)
          simp only []
          have : (internalHandlerGo env e fuel (ntry + 1) db).attempts + 1 ≤
              MAX_RETRIES + 1 - min ntry MAX_RETRIES := by omega
          simpa using this
        · rw [if_neg hn]
          split <;> · simp; omega

/-- Claim C8: with a transient (non-P2025) fault on every attempt, the
internal handler re-enters from the top with the counter incremented while
`ntry < MAX_RETRIES` (10); when the bound is reached it stops, persists the
Event row and publishes one `Network Error` error outcome event, having
performed `MAX_RETRIES - ntry + 1` total entries (so `MAX_RETRIES - ntry`
re-entries).  Moreover — second conjunct, for every environment, request and
store — the number of entries never exceeds `MAX_RETRIES + 1 - min ntry
MAX_RETRIES`: processing of a single request terminates after at most
MAX_RETRIES re-entries. -/
theorem c8_retry_bound (env : Env) (e : NEvent) (db : DB) (ev : EventRow)
    (tx : ITransaction) (tokens : List TokenRow) (payload : Payload)
    (hpre : prevalidate env TransactionType.INTERNAL e db =
      .proceed ev tx tokens payload)
    (hfault : ∀ n, env.fault n = true) :
    (∀ ntry, ntry ≤ MAX_RETRIES →
        internalHandler env e ntry db =
          { db := { db with events := db.events ++ [ev] },
            pubs := [txErrorEvent env "Network Error" tx], err := none,
            attempts := MAX_RETRIES - ntry + 1 }) ∧
      (∀ (env2 : Env) (e2 : NEvent) (ntry : Nat) (db2 : DB),
        (internalHandler env2 e2 ntry db2).attempts ≤
          MAX_RETRIES + 1 - min ntry MAX_RETRIES) := by
  constructor
  · intro ntry hn
    obtain ⟨hhas, _, hid, _, _, _, _, _⟩ :=
      prevalidate_proceed_inv env TransactionType.INTERNAL e db ev tx tokens
        payload hpre
    have hec : eventCreate db ev =
        .ok { db with events := db.events ++ [ev] } := by
      unfold eventCreate
      rw [hid, hhas]
      simp
    exact internalGo_allfault env e db ev tx tokens payload hpre hfault hec
      (MAX_RETRIES + 1 - ntry) ntry rfl hn
  · intro env2 e2 ntry db2
    exact internalGo_attempts_le env2 e2 (MAX_RETRIES + 1 - ntry) ntry db2 rfl

/-- Claim C8 (witness): every attempt faults; starting at `ntry = 0` the
handler performs 11 entries (10 re-entries), persists the Event and
publishes one `Network Error` event. -/
theorem c8_retry_bound_witness :
    (prevalidate envFault TransactionType.INTERNAL eC8 dbC8 =
        .proceed evC8 txC8 [tkT] plC40 ∧ (0 : Nat) ≤ MAX_RETRIES) ∧
      internalHandler envFault eC8 0 dbC8 =
        { db := { dbC8 with events := dbC8.events ++ [evC8] },
          pubs := [txErrorEvent envFault "Network Error" txC8], err := none,
          attempts := MAX_RETRIES - 0 + 1 } :=
  ⟨⟨by decide, by decide⟩,
   (c8_retry_bound envFault eC8 dbC8 evC8 txC8 [tkT] plC40 (by decide)
      (fun _ => rfl)).1 0 (by decide)⟩

theorem ChainOk.mono (snaps extra : List BalanceSnapshotRow) {sid : Nat}
    {amt : Int} (h : ChainOk snaps sid amt) :
    ChainOk (snaps ++ extra) sid amt := by
  induction h with
  | root s hs hprev hsum => exact .root s (List.mem_append_left _ hs) hprev hsum
  | step s p pa hs hprev _ hsum ih =>
    exact .step s p pa (List.mem_append_left _ hs) hprev ih hsum

theorem snap_eq_of_id_eq {snaps : List BalanceSnapshotRow}
    (hnd : (snaps.map (fun s => s.id)).Nodup)
    {s1 s2 : BalanceSnapshotRow} (h1 : s1 ∈ snaps) (h2 : s2 ∈ snaps)
    (hid : s1.id = s2.id) : s1 = s2 :=
  List.inj_on_of_nodup_map hnd h1 h2 hid

theorem chainsOk_balanceUpdate (db : DB) (balance : ExtBalance)
    (accountId tokenId newEventId : String) (snap : SnapshotCreateInput)
    (hprev : snap.prevSnapshotId = some balance.snapshotId)
    (hamount : snap.amount = balance.snapshot.amount + snap.delta)
    (hrb : ∃ rb ∈ db.balances, rb.snapshotId = balance.snapshotId)
    (hsnap : balance.snapshot ∈ db.snapshots)
    (hsnapid : balance.snapshot.id = balance.snapshotId)
    (hids : (db.snapshots.map (fun s => s.id)).Nodup)
    (hinv : chainsOk db) :
    chainsOk (balanceUpdate db accountId tokenId newEventId snap) := by
  obtain ⟨rb, hrbmem, hrbsid⟩ := hrb
  obtain ⟨s0, hs0mem, hs0id, hchain0⟩ := hinv rb hrbmem
  have hs0 : s0 = balance.snapshot := by
    apply snap_eq_of_id_eq hids hs0mem hsnap
    rw [hs0id, hrbsid, hsnapid]
  subst hs0
  rw [hrbsid] at hchain0
  intro r' hr'
  simp only [balanceUpdate] at hr' ⊢
  obtain ⟨r0, hr0, hfr0⟩ := List.mem_map.mp hr'
  by_cases hkey : (r0.accountId == accountId && r0.tokenId == tokenId) = true
  · rw [if_pos hkey] at hfr0
    subst hfr0
    refine ⟨{ id := db.fresh, prevSnapshotId := snap.prevSnapshotId,
              amount := snap.amount, delta := snap.delta,
              transactionId := snap.transactionId, eventId := snap.eventId,
              tokenId := snap.tokenId, accountId := snap.accountId },
            List.mem_append_right _ (by simp), rfl, ?_⟩
    refine ChainOk.step
      { id := db.fresh, prevSnapshotId := snap.prevSnapshotId,
        amount := snap.amount, delta := snap.delta,
        transactionId := snap.transactionId, eventId := snap.eventId,
        tokenId := snap.tokenId, accountId := snap.accountId }
      balance.snapshotId balance.snapshot.amount
      (List.mem_append_right _ (by simp)) hprev
      (ChainOk.mono _ _ hchain0) hamount
  · rw [if_neg hkey] at hfr0
    subst hfr0
    obtain ⟨s1, hs1mem, hs1id, hchain1⟩ := hinv r0 hr0
    exact ⟨s1, List.mem_append_left _ hs1mem, hs1id, ChainOk.mono _ _ hchain1⟩

/-- Claim C6: a Debit (resp. Credit) of a balance B by Δ appends exactly one
new BalanceSnapshot whose `prev_snapshot_id` is B's previous `snapshot_id`
and whose `delta` is `-Δ` (resp. `+Δ`) and whose `amount` is B's amount
`∓ Δ`; it updates B's row to point at the new snapshot with the
transaction's event id; and it preserves the chain invariant: for every
Balance of the resulting store, walking `prev_snapshot_id` reaches a root
snapshot (`prev_snapshot_id` null) with the running `delta` sum equal to the
current amount (`chainsOk`, built on `ChainOk`). -/
theorem c6_snapshot_chain_integrity (db : DB) (balance : ExtBalance)
    (transaction : TransactionRow) (eventId : String) (txAmount : Int)
    (rb : BalanceRow)
    (hrb : rb ∈ db.balances)
    (hacc : rb.accountId = balance.accountId)
    (htok : rb.tokenId = balance.tokenId)
    (hsid : rb.snapshotId = balance.snapshotId)
    (hsnap : balance.snapshot ∈ db.snapshots)
    (hsnapid : balance.snapshot.id = balance.snapshotId)
    (hids : (db.snapshots.map (fun s => s.id)).Nodup)
    (hinv : chainsOk db) :
    ((debitStep db balance transaction eventId txAmount).1.snapshots =
        db.snapshots ++
          [{ id := db.fresh, prevSnapshotId := some balance.snapshotId,
             amount := balance.snapshot.amount - txAmount,
             delta := -txAmount, transactionId := transaction.id,
             eventId := eventId, tokenId := balance.tokenId,
             accountId := balance.accountId }]) ∧
      ((creditStep db balance transaction eventId txAmount).1.snapshots =
        db.snapshots ++
          [{ id := db.fresh, prevSnapshotId := some balance.snapshotId,
             amount := balance.snapshot.amount + txAmount,
             delta := txAmount, transactionId := transaction.id,
             eventId := eventId, tokenId := balance.tokenId,
             accountId := balance.accountId }]) ∧
      ({ rb with snapshotId := db.fresh, eventId := transaction.eventId } ∈
        (debitStep db balance transaction eventId txAmount).1.balances) ∧
      ({ rb with snapshotId := db.fresh, eventId := transaction.eventId } ∈
        (creditStep db balance transaction eventId txAmount).1.balances) ∧
      chainsOk (debitStep db balance transaction eventId txAmount).1 ∧
      chainsOk (creditStep db balance transaction eventId txAmount).1 := by
  refine ⟨rfl, rfl, ?_, ?_, ?_, ?_⟩
  · unfold debitStep balanceUpdate
    simp only
    refine List.mem_map.mpr ⟨rb, hrb, ?_⟩
    rw [if_pos (by simp [hacc, htok])]
  · unfold creditStep balanceUpdate
    simp only
    refine List.mem_map.mpr ⟨rb, hrb, ?_⟩
    rw [if_pos (by simp [hacc, htok])]
  · refine chainsOk_balanceUpdate db balance balance.accountId
      balance.tokenId transaction.eventId _ rfl ?_ ⟨rb, hrb, hsid⟩ hsnap
      hsnapid hids hinv
    show balance.snapshot.amount - txAmount =
      balance.snapshot.amount + (-txAmount)
    ring
  · refine chainsOk_balanceUpdate db balance balance.accountId
      balance.tokenId transaction.eventId _ rfl ?_ ⟨rb, hrb, hsid⟩ hsnap
      hsnapid hids hinv
    show balance.snapshot.amount + txAmount =
      balance.snapshot.amount + txAmount
    rfl

/-- Claim C6 (witness): one balance of 10 T with a root snapshot; a debit and
a credit of 4 preserve the chain invariant. -/
theorem c6_snapshot_chain_integrity_witness :
    (bC6.snapshot ∈ dbC6.snapshots ∧ chainsOk dbC6) ∧
      chainsOk (debitStep dbC6 bC6 trC6 "e6" 4).1 ∧
      chainsOk (creditStep dbC6 bC6 trC6 "e6" 4).1 := by
  have hinv : chainsOk dbC6 := by
    intro r hr
    have hr1 : r = rbC6 := by
      have hmem : r ∈ [rbC6] := hr
      simpa using hmem
    subst hr1
    exact ⟨snapA10, by decide, rfl,
           ChainOk.root snapA10 (by decide) rfl (by decide)⟩
  have h := c6_snapshot_chain_integrity dbC6 bC6 trC6 "e6" 4 rbC6
    (by decide) rfl rfl rfl (by decide) rfl (by decide) hinv
  exact ⟨⟨by decide, hinv⟩, h.2.2.2.2.1, h.2.2.2.2.2⟩

theorem eventCreate_ok_inv (db : DB) (ev : EventRow) (db1 : DB)
    (h : eventCreate db ev = .ok db1) :
    hasEvent db ev.id = false ∧
      db1 = { db with events := db.events ++ [ev] } := by
  unfold eventCreate at h
  split at h
  · exact absurd h (by simp)
  · rename_i hhas
    injection h with h1
    exact ⟨by simpa using hhas, h1.symm⟩

theorem transactionCreate_ok_inv (db : DB) (tid : String) (ev : EventRow)
    (db1 : DB) (tr : TransactionRow)
    (h : transactionCreate db tid ev = .ok (db1, tr)) :
    tr.eventId = ev.id ∧
      db1.events = db.events ++ [ev] ∧
      db1.transactions = db.transactions ++ [tr] ∧
      db1.tokens = db.tokens ∧ db1.txTypes = db.txTypes := by
  unfold transactionCreate at h
  split at h
  · exact absurd h (by simp)
  · split at h
    · exact absurd h (by simp)
    · injection h with h1
      injection h1 with h1 h2
      subst h1
      subst h2
      exact ⟨rfl, rfl, rfl, rfl, rfl⟩

theorem removeFromBalances_evtx (ev : EventRow) (transaction : TransactionRow)
    (payload : Payload) :
    ∀ (bs : List ExtBalance) (db db2 : DB) (out : List ExtBalance),
      removeFromBalances ev transaction payload db bs = .ok (db2, out) →
      db2.events = db.events ∧ db2.transactions = db.transactions := by
  intro bs
  induction bs with
  | nil =>
    intro db db2 out h
    unfold removeFromBalances at h
    injection h with h1
    injection h1 with h1 h2
    subst h1
    exact ⟨rfl, rfl⟩
  | cons b rest ih =>
    intro db db2 out h
    unfold removeFromBalances at h
    dsimp only at h
    split at h
    · exact absurd h (by simp)
    · cases hrec : removeFromBalances ev transaction payload
          (debitStep db b transaction ev.id
            (lookupAmount payload b.token.name)).1 rest with
      | error err => rw [hrec] at h; exact absurd h (by simp [Except.map])
      | ok out3 =>
        rw [hrec] at h
        simp only [Except.map] at h
        injection h with h1
        injection h1 with h1 h2
        subst h1
        have := ih _ _ _ hrec
        exact ⟨this.1, this.2⟩

theorem addToBalances_evtx (ev : EventRow) (transaction : TransactionRow)
    (payload : Payload) :
    ∀ (bs : List ExtBalance) (db db2 : DB) (out : List ExtBalance),
      addToBalances ev transaction payload db bs = .ok (db2, out) →
      db2.events = db.events ∧ db2.transactions = db.transactions := by
  intro bs
  induction bs with
  | nil =>
    intro db db2 out h
    unfold addToBalances at h
    injection h with h1
    injection h1 with h1 h2
    subst h1
    exact ⟨rfl, rfl⟩
  | cons b rest ih =>
    intro db db2 out h
    unfold addToBalances at h
    dsimp only at h
    cases hrec : addToBalances ev transaction payload
        (creditStep db b transaction ev.id
          (lookupAmount payload b.token.name)).1 rest with
    | error err => rw [hrec] at h; exact absurd h (by simp [Except.map])
    | ok out3 =>
      rw [hrec] at h
      simp only [Except.map] at h
      injection h with h1
      injection h1 with h1 h2
      subst h1
      have := ih _ _ _ hrec
      exact ⟨this.1, this.2⟩

theorem createBalances_evtx (receiverId : String) (ev : EventRow)
    (transaction : TransactionRow) (payload : Payload) :
    ∀ (ts : List TokenRow) (db db2 : DB) (out : List ExtBalance),
      createBalances receiverId ev transaction payload db ts = .ok (db2, out) →
      db2.events = db.events ∧ db2.transactions = db.transactions := by
  intro ts
  induction ts with
  | nil =>
    intro db db2 out h
    unfold createBalances at h
    injection h with h1
    injection h1 with h1 h2
    subst h1
    exact ⟨rfl, rfl⟩
  | cons t rest ih =>
    intro db db2 out h
    unfold createBalances at h
    split at h
    · exact absurd h (by simp)
    · rename_i db1 b hcb
      cases hrec : createBalances receiverId ev transaction payload db1
          rest with
      | error err => rw [hrec] at h; exact absurd h (by simp [Except.map])
      | ok out3 =>
        rw [hrec] at h
        simp only [Except.map] at h
        injection h with h1
        injection h1 with h1 h2
        subst h1
        have hr := ih _ _ _ hrec
        have hc : db1.events = db.events ∧
            db1.transactions = db.transactions := by
          unfold createBalance1 at hcb
          split at hcb
          · exact absurd hcb (by simp)
          · injection hcb with h3
            injection h3 with h3 h4
            subst h3
            exact ⟨rfl, rfl⟩
        exact ⟨hr.1.trans hc.1, hr.2.trans hc.2⟩

theorem internalTxBody_ok_inv (ev : EventRow) (tx : ITransaction)
    (tokens : List TokenRow) (payload : Payload) (db db4 : DB)
    (g : BalancesByAccount)
    (h : internalTxBody ev tx tokens payload db = .ok (db4, g)) :
    ∃ tr : TransactionRow, tr.eventId = ev.id ∧
      db4.events = db.events ++ [ev] ∧
      db4.transactions = db.transactions ++ [tr] := by
  unfold internalTxBody at h
  split at h
  · exact absurd h (by simp)
  · split at h
    · exact absurd h (by simp)
    · rename_i db1 tr htc
      split at h
      · exact absurd h (by simp)
      · rename_i db2 sender hrm
        split at h
        · exact absurd h (by simp)
        · rename_i db3 receiver hadd
          split at h
          · exact absurd h (by simp)
          · rename_i db4' created hcr
            injection h with h1
            injection h1 with h1 h2
            subst h1
            have htci := transactionCreate_ok_inv db tx.txTypeId ev db1 tr htc
            have hrmi := removeFromBalances_evtx ev tr payload _ db1 db2
              sender hrm
            have haddi := addToBalances_evtx ev tr payload _ db2 db3
              receiver hadd
            have hcri := createBalances_evtx tx.receiverId ev tr payload _
              db3 db4' created hcr
            refine ⟨tr, htci.1, ?_, ?_⟩
            · rw [hcri.1, haddi.1, hrmi.1, htci.2.1]
            · rw [hcri.2, haddi.2, hrmi.2, htci.2.2.1]

theorem prevalidate_rejected_inv (env : Env) (tt : TransactionType)
    (e : NEvent) (db db1 : DB) (pubs : List OutEvent)
    (h : prevalidate env tt e db = .rejected db1 pubs) :
    ∃ row : EventRow, row.id = e.id ∧
      db1 = { db with events := db.events ++ [row] } := by
  unfold prevalidate at h
  split at h
  · exact absurd h (by simp)
  · split at h
    · exact absurd h (by simp)
    · rename_i ev1 hev1
      have hid1 := (nostrEventToDB_inv env e ev1 hev1).1
      split at h
      · exact absurd h (by simp)
      · split at h
        · split at h
          · rename_i db1' hec
            simp only [PreResult.rejected.injEq] at h
            obtain ⟨rfl, rfl⟩ := h
            exact ⟨{ ev1 with payload := some Payload.empty }, hid1,
              (eventCreate_ok_inv db _ _ hec).2⟩
          · exact absurd h (by simp)
        · rename_i payload1 hpl1
          by_cases hlen : (requestTokens db payload1).length ≠
              (requestTokenNames payload1).length
          · rw [if_pos hlen] at h
            split at h
            · rename_i db1' hec
              simp only [PreResult.rejected.injEq] at h
              obtain ⟨rfl, rfl⟩ := h
              exact ⟨ev1, hid1, (eventCreate_ok_inv db ev1 _ hec).2⟩
            · exact absurd h (by simp)
          · rw [if_neg hlen] at h
            split at h
            · split at h
              · rename_i db1' hec
                simp only [PreResult.rejected.injEq] at h
                obtain ⟨rfl, rfl⟩ := h
                exact ⟨ev1, hid1, (eventCreate_ok_inv db ev1 _ hec).2⟩
              · exact absurd h (by simp)
            · exact absurd h (by simp)

theorem length_filter_append_singleton {α : Type} (p : α → Bool) (l : List α)
    (a : α) :
    ((l ++ [a]).filter p).length ≤ (l.filter p).length + 1 := by
  rw [List.filter_append, List.length_append]
  by_cases hp : p a = true <;> simp [hp]

theorem internalStep_cases (env : Env) (e : NEvent)
    (retry : Nat → DB → RunOut)
    (hretry : ∀ n d, hasEvent (retry n d).db e.id = true ∨
      ((retry n d).db = d ∧ (retry n d).pubs = []))
    (ntry : Nat) (db : DB) :
    hasEvent (internalStep env e retry ntry db).db e.id = true ∨
      ((internalStep env e retry ntry db).db = db ∧
       (internalStep env e retry ntry db).pubs = []) := by
  rcases hp : prevalidate env TransactionType.INTERNAL e db with
    _ | err | ⟨db1, pubs⟩ | ⟨ev, tx, tokens, payload⟩
  · simp [internalStep, hp]
  · simp [internalStep, hp]
  · simp only [internalStep, hp]
    left
    obtain ⟨row, hrow, hdb1⟩ :=
      prevalidate_rejected_inv env TransactionType.INTERNAL e db db1 pubs hp
    rw [hdb1]
    unfold hasEvent
    simp [hrow]
  · simp only [internalStep, hp]
    have hid := (prevalidate_proceed_inv env TransactionType.INTERNAL e db ev
      tx tokens payload hp).2.2.1
    rcases hr : runTx env ntry db (internalTxBody ev tx tokens payload) with
      err | ⟨db1, g⟩
    case proceed.ok.mk =>
      simp only [hr]
      left
      have hbody : internalTxBody ev tx tokens payload db = .ok (db1, g) := by
        unfold runTx at hr
        split at hr
        · exact absurd hr (by simp)
        · exact hr
      obtain ⟨tr, _, hevents, _⟩ :=
        internalTxBody_ok_inv ev tx tokens payload db db1 g hbody
      unfold hasEvent
      rw [hevents]
      simp [hid]
    case proceed.error =>
      have hcatch : ∀ err2 : JsError,
          hasEvent (match eventCreate db ev with
            | Except.ok db2 =>
              ({ db := db2, pubs := [txErrorEvent env "Not enough funds" tx],
                 err := none, attempts := 1 } : RunOut)
            | Except.error err2 =>
              { db := db, pubs := [], err := some err2,
                attempts := 1 }).db e.id = true ∨
          ((match eventCreate db ev with
            | Except.ok db2 =>
              ({ db := db2, pubs := [txErrorEvent env "Not enough funds" tx],
                 err := none, attempts := 1 } : RunOut)
            | Except.error err2 =>
              { db := db, pubs := [], err := some err2,
                attempts := 1 }).db = db ∧
           (match eventCreate db ev with
            | Except.ok db2 =>
              ({ db := db2, pubs := [txErrorEvent env "Not enough funds" tx],
                 err := none, attempts := 1 } : RunOut)
            | Except.error err2 =>
              { db := db, pubs := [], err := some err2,
                attempts := 1 }).pubs = []) := by
        intro err2
        rcases hec : eventCreate db ev with err3 | db2
        · simp [hec]
        · simp only [hec]
          left
          obtain ⟨_, hdb2⟩ := eventCreate_ok_inv db ev db2 hec
          rw [hdb2]
          unfold hasEvent
          simp [hid]
      have hnet : hasEvent (match eventCreate db ev with
            | Except.ok db2 =>
              ({ db := db2, pubs := [txErrorEvent env "Network Error" tx],
                 err := none, attempts := 1 } : RunOut)
            | Except.error err2 =>
              { db := db, pubs := [], err := some err2,
                attempts := 1 }).db e.id = true ∨
          ((match eventCreate db ev with
            | Except.ok db2 =>
              ({ db := db2, pubs := [txErrorEvent env "Network Error" tx],
                 err := none, attempts := 1 } : RunOut)
            | Except.error err2 =>
              { db := db, pubs := [], err := some err2,
                attempts := 1 }).db = db ∧
           (match eventCreate db ev with
            | Except.ok db2 =>
              ({ db := db2, pubs := [txErrorEvent env "Network Error" tx],
                 err := none, attempts := 1 } : RunOut)
            | Except.error err2 =>
              { db := db, pubs := [], err := some err2,
                attempts := 1 }).pubs = []) := by
        rcases hec : eventCreate db ev with err3 | db2
        · simp [hec]
        · simp only [hec]
          left
          obtain ⟨_, hdb2⟩ := eventCreate_ok_inv db ev db2 hec
          rw [hdb2]
          unfold hasEvent
          simp [hid]
      have hrcase : hasEvent (retry (ntry + 1) db).db e.id = true ∨
          ((retry (ntry + 1) db).db = db ∧ (retry (ntry + 1) db).pubs = []) :=
        hretry (ntry + 1) db
      cases err with
      | notFound => simp only [hr]; exact hcatch .notFound
      | uniqueViolation =>
        simp only [hr]
        by_cases hn : ntry < MAX_RETRIES
        · rw [if_pos hn]; exact hrcase
        · rw [if_neg hn]; exact hnet
      | typeError =>
        simp only [hr]
        by_cases hn : ntry < MAX_RETRIES
        · rw [if_pos hn]; exact hrcase
        · rw [if_neg hn]; exact hnet
      | invalidAuthor =>
        simp only [hr]
        by_cases hn : ntry < MAX_RETRIES
        · rw [if_pos hn]; exact hrcase
        · rw [if_neg hn]; exact hnet
      | injected =>
        simp only [hr]
        by_cases hn : ntry < MAX_RETRIES
        · rw [if_pos hn]; exact hrcase
        · rw [if_neg hn]; exact hnet

theorem internalGo_cases (env : Env) (e : NEvent) :
    ∀ (fuel ntry : Nat) (db : DB),
      hasEvent (internalHandlerGo env e fuel ntry db).db e.id = true ∨
        ((internalHandlerGo env e fuel ntry db).db = db ∧
         (internalHandlerGo env e fuel ntry db).pubs = []) := by
  intro fuel
  induction fuel with
  | zero =>
    intro ntry db
    exact internalStep_cases env e _ (fun n d => Or.inr ⟨rfl, rfl⟩) ntry db
  | succ fuel ih =>
    intro ntry db
    exact internalStep_cases env e _ (fun n d => ih n d) ntry db

theorem internalHandler_cases (env : Env) (e : NEvent) (ntry : Nat) (db : DB) :
    hasEvent (internalHandler env e ntry db).db e.id = true ∨
      ((internalHandler env e ntry db).db = db ∧
       (internalHandler env e ntry db).pubs = []) :=
  internalGo_cases env e (MAX_RETRIES + 1 - ntry) ntry db

theorem internalStep_counts (env : Env) (e : NEvent)
    (retry : Nat → DB → RunOut)
    (hretry : ∀ n d, countEvents d e.id = 0 → countTx d e.id = 0 →
      countEvents (retry n d).db e.id ≤ 1 ∧ countTx (retry n d).db e.id ≤ 1)
    (ntry : Nat) (db : DB)
    (h0 : countEvents db e.id = 0) (h1 : countTx db e.id = 0) :
    countEvents (internalStep env e retry ntry db).db e.id ≤ 1 ∧
      countTx (internalStep env e retry ntry db).db e.id ≤ 1 := by
  rcases hp : prevalidate env TransactionType.INTERNAL e db with
    _ | err | ⟨db1, pubs⟩ | ⟨ev, tx, tokens, payload⟩
  · simp only [internalStep, hp]
    exact ⟨by omega, by omega⟩
  · simp only [internalStep, hp]
    exact ⟨by omega, by omega⟩
  · simp only [internalStep, hp]
    obtain ⟨row, hrow, hdb1⟩ :=
      prevalidate_rejected_inv env TransactionType.INTERNAL e db db1 pubs hp
    subst hdb1
    constructor
    · have h2 : countEvents { db with events := db.events ++ [row] } e.id ≤
          countEvents db e.id + 1 := by
        unfold countEvents
        exact length_filter_append_singleton _ _ _
      omega
    · have h2 : countTx { db with events := db.events ++ [row] } e.id =
          countTx db e.id := rfl
      omega
  · simp only [internalStep, hp]
    rcases hr : runTx env ntry db (internalTxBody ev tx tokens payload) with
      err | ⟨db1, g⟩
    case proceed.ok.mk =>
      simp only [hr]
      have hbody : internalTxBody ev tx tokens payload db = .ok (db1, g) := by
        unfold runTx at hr
        split at hr
        · exact absurd hr (by simp)
        · exact hr
      obtain ⟨tr, htr, hevents, htxs⟩ :=
        internalTxBody_ok_inv ev tx tokens payload db db1 g hbody
      constructor
      · have h2 : countEvents db1 e.id ≤ countEvents db e.id + 1 := by
          unfold countEvents
          rw [hevents]
          exact length_filter_append_singleton _ _ _
        omega
      · have h2 : countTx db1 e.id ≤ countTx db e.id + 1 := by
          unfold countTx
          rw [htxs]
          exact length_filter_append_singleton _ _ _
        omega
    case proceed.error =>
      have hgen : ∀ msg : String,
          countEvents (match eventCreate db ev with
            | Except.ok db2 =>
              ({ db := db2, pubs := [txErrorEvent env msg tx],
                 err := none, attempts := 1 } : RunOut)
            | Except.error err2 =>
              { db := db, pubs := [], err := some err2,
                attempts := 1 }).db e.id ≤ 1 ∧
          countTx (match eventCreate db ev with
            | Except.ok db2 =>
              ({ db := db2, pubs := [txErrorEvent env msg tx],
                 err := none, attempts := 1 } : RunOut)
            | Except.error err2 =>
              { db := db, pubs := [], err := some err2,
                attempts := 1 }).db e.id ≤ 1 := by
        intro msg
        rcases hec : eventCreate db ev with err3 | db2
        · simp only [hec]
          exact ⟨by omega, by omega⟩
        · simp only [hec]
          obtain ⟨_, hdb2⟩ := eventCreate_ok_inv db ev db2 hec
          subst hdb2
          constructor
          · have h2 : countEvents { db with events := db.events ++ [ev] }
                e.id ≤ countEvents db e.id + 1 := by
              unfold countEvents
              exact length_filter_append_singleton _ _ _
            omega
          · have h2 : countTx { db with events := db.events ++ [ev] } e.id =
                countTx db e.id := rfl
            omega
      cases err with
      | notFound => simp only [hr]; exact hgen "Not enough funds"
      | uniqueViolation =>
        simp only [hr]
        by_cases hn : ntry < MAX_RETRIES
        · rw [if_pos hn]
          exact hretry (ntry + 1) db h0 h1
        · rw [if_neg hn]
          exact hgen "Network Error"
      | typeError =>
        simp only [hr]
        by_cases hn : ntry < MAX_RETRIES
        · rw [if_pos hn]
          exact hretry (ntry + 1) db h0 h1
        · rw [if_neg hn]
          exact hgen "Network Error"
      | invalidAuthor =>
        simp only [hr]
        by_cases hn : ntry < MAX_RETRIES
        · rw [if_pos hn]
          exact hretry (ntry + 1) db h0 h1
        · rw [if_neg hn]
          exact hgen "Network Error"
      | injected =>
        simp only [hr]
        by_cases hn : ntry < MAX_RETRIES
        · rw [if_pos hn]
          exact hretry (ntry + 1) db h0 h1
        · rw [if_neg hn]
          exact hgen "Network Error"

theorem internalGo_counts (env : Env) (e : NEvent) :
    ∀ (fuel ntry : Nat) (db : DB), countEvents db e.id = 0 →
      countTx db e.id = 0 →
      countEvents (internalHandlerGo env e fuel ntry db).db e.id ≤ 1 ∧
      countTx (internalHandlerGo env e fuel ntry db).db e.id ≤ 1 := by
  intro fuel
  induction fuel with
  | zero =>
    intro ntry db h0 h1
    refine internalStep_counts env e _ (fun n d hd0 hd1 => ?_) ntry db h0 h1
    constructor
    · show countEvents d e.id ≤ 1
      omega
    · show countTx d e.id ≤ 1
      omega
  | succ fuel ih =>
    intro ntry db h0 h1
    exact internalStep_counts env e _ (fun n d hd0 hd1 => ih n d hd0 hd1)
      ntry db h0 h1

theorem internalHandler_counts (env : Env) (e : NEvent) (ntry : Nat) (db : DB)
    (h0 : countEvents db e.id = 0) (h1 : countTx db e.id = 0) :
    countEvents (internalHandler env e ntry db).db e.id ≤ 1 ∧
      countTx (internalHandler env e ntry db).db e.id ≤ 1 :=
  internalGo_counts env e (MAX_RETRIES + 1 - ntry) ntry db h0 h1

theorem internalHandler_silent (env : Env) (e : NEvent) (ntry : Nat) (db : DB)
    (h : hasEvent db e.id = true) :
    internalHandler env e ntry db =
      { db := db, pubs := [], err := none, attempts := 1 } := by
  have hp : prevalidate env TransactionType.INTERNAL e db =
      .alreadyHandled := by
    unfold prevalidate
    simp [h]
  unfold internalHandler
  cases MAX_RETRIES + 1 - ntry <;>
  · unfold internalHandlerGo internalStep
    simp only [hp]

theorem deliverN_silent (env : Env) (e : NEvent) (ntry : Nat) (db : DB)
    (h : hasEvent db e.id = true) :
    ∀ n, deliverN env e ntry n db = (db, []) := by
  intro n
  induction n with
  | zero => rfl
  | succ n ih =>
    simp only [deliverN, internalHandler_silent env e ntry db h, ih]
    rfl

theorem deliverN_stuck (env : Env) (e : NEvent) (ntry : Nat) (db : DB)
    (h1 : (internalHandler env e ntry db).db = db)
    (h2 : (internalHandler env e ntry db).pubs = []) :
    ∀ n, deliverN env e ntry n db = (db, []) := by
  intro n
  induction n with
  | zero => rfl
  | succ n ih =>
    simp only [deliverN, h1, h2, ih]
    rfl

/-- Claim C3: (1) a request whose id is already persisted is dropped
silently — the handler changes nothing and publishes nothing; (2) delivering
the same request event N ≥ 1 times produces exactly the same final store and
the same total publications as delivering it once (replays publish nothing);
(3) starting from a store with no Event row and no Transaction for the id,
any number of deliveries leaves at most one persisted Event row and at most
one committed Transaction for that id. -/
theorem c3_idempotency (env : Env) (e : NEvent) (ntry : Nat) (db : DB) :
    (hasEvent db e.id = true →
        internalHandler env e ntry db =
          { db := db, pubs := [], err := none, attempts := 1 }) ∧
      (∀ n, 1 ≤ n →
        deliverN env e ntry n db = deliverN env e ntry 1 db) ∧
      (countEvents db e.id = 0 → countTx db e.id = 0 → ∀ n,
        countEvents (deliverN env e ntry n db).1 e.id ≤ 1 ∧
        countTx (deliverN env e ntry n db).1 e.id ≤ 1) := by
  have hone : deliverN env e ntry 1 db =
      ((internalHandler env e ntry db).db,
       (internalHandler env e ntry db).pubs) := by
    simp [deliverN]
  have hmulti : ∀ n, 1 ≤ n →
      deliverN env e ntry n db = deliverN env e ntry 1 db := by
    intro n hn
    obtain ⟨m, rfl⟩ : ∃ m, n = m + 1 := ⟨n - 1, by omega⟩
    rcases internalHandler_cases env e ntry db with hh | ⟨hdb, hpubs⟩
    · have hrest := deliverN_silent env e ntry
        (internalHandler env e ntry db).db hh m
      simp only [deliverN, hrest, hone]
    · have hstuck := deliverN_stuck env e ntry db hdb hpubs
      rw [hstuck (m + 1), hstuck 1]
  refine ⟨fun h => internalHandler_silent env e ntry db h, hmulti, ?_⟩
  intro h0 h1 n
  cases n with
  | zero =>
    constructor
    · show countEvents db e.id ≤ 1
      omega
    · show countTx db e.id ≤ 1
      omega
  | succ m =>
    rw [hmulti (m + 1) (by omega), hone]
    exact internalHandler_counts env e ntry db h0 h1

/-- Claim C3 (witness): a successful transfer delivered three times equals a
single delivery (one Event row, one Transaction, silent replays), and a
replay against a store that already holds the Event row is a no-op. -/
theorem c3_idempotency_witness :
    (hasEvent dbC3dup eC3.id = true ∧
        internalHandler envA eC3 0 dbC3dup =
          { db := dbC3dup, pubs := [], err := none, attempts := 1 }) ∧
      ((1 : Nat) ≤ 3 ∧
        deliverN envA eC3 0 3 dbC3 = deliverN envA eC3 0 1 dbC3) ∧
      (countEvents dbC3 eC3.id = 0 ∧ countTx dbC3 eC3.id = 0 ∧
        countEvents (deliverN envA eC3 0 3 dbC3).1 eC3.id ≤ 1 ∧
        countTx (deliverN envA eC3 0 3 dbC3).1 eC3.id ≤ 1) :=
  ⟨⟨by decide, (c3_idempotency envA eC3 0 dbC3dup).1 (by decide)⟩,
   ⟨by decide, (c3_idempotency envA eC3 0 dbC3).2.1 3 (by decide)⟩,
   ⟨by decide, by decide,
    ((c3_idempotency envA eC3 0 dbC3).2.2 (by decide) (by decide) 3).1,
    ((c3_idempotency envA eC3 0 dbC3).2.2 (by decide) (by decide) 3).2⟩⟩
